import Mathlib

/-!
Verification of the repetition state machine of `scripts/biceps_curl_counter.py`
(class `BicepsCurlCounter`).  The Python class is shallowly embedded: every
mutable attribute becomes a field of `ArmState` / `CounterState`, each method
becomes a pure function on those records, and the wall-clock reads
(`time.time()`) become explicit rational timestamp parameters.  Angles, torso
angles, confidences and times are modelled as rationals (the source only
compares and averages them).  The per-arm halves of the Python code are
literally duplicated in the source for `left` and `right`; they are embedded
once as functions on one `ArmState` and instantiated for both sides.
-/

namespace GymBuddy

/-- Committed/proposed position class of one arm
(Python strings "up" / "down" / "transition" / "unknown"). -/
inductive Level
  | unknown
  | down
  | up
  | transition
deriving DecidableEq, Repr

/-- The five rejection reasons the source can ever add to the per-arm
`*_invalid_reasons` set (lines 382, 386, 390, 395, 403 of
`biceps_curl_counter.py`); each is a fixed message template, so the Python
string set is faithfully a set over these five values. -/
inductive Reason
  | notReachDown      -- "Did not reach DOWN position (arm angle must be > …°)"
  | noTransition      -- "No transition detected"
  | notReachUp        -- "Did not reach UP position (arm angle must be < …°)"
  | torsoExceeded     -- "Torso angle exceeded …° (3-frame avg) during rep cycle"
  | insufficientRom   -- "Insufficient ROM (…° < …°)"
deriving DecidableEq, Repr

/-- The per-arm `*_invalid_reasons` Python `set()`, as membership flags for the
five possible elements. -/
structure Reasons where
  notReachDown : Bool := false
  noTransition : Bool := false
  notReachUp : Bool := false
  torsoExceeded : Bool := false
  insufficientRom : Bool := false
deriving DecidableEq, Repr

/-- `sorted(reasons)` (line 408/441): Python sorts the five message strings
lexicographically, which orders them as: "Did not reach DOWN …",
"Did not reach UP …", "Insufficient ROM …", "No transition detected",
"Torso angle exceeded …". -/
def Reasons.toSortedList (r : Reasons) : List Reason :=
  (if r.notReachDown then [Reason.notReachDown] else []) ++
  (if r.notReachUp then [Reason.notReachUp] else []) ++
  (if r.insufficientRom then [Reason.insufficientRom] else []) ++
  (if r.noTransition then [Reason.noTransition] else []) ++
  (if r.torsoExceeded then [Reason.torsoExceeded] else [])

/-- Configuration attributes of `BicepsCurlCounter.__init__` (lines 15-54,
99-100, 130).  In the source they are instance attributes that are set once in
the constructor and never written afterwards. -/
structure Config where
  angle_threshold_down : ℚ
  angle_threshold_up : ℚ
  torso_angle_threshold : ℚ
  min_hold_time : ℚ
  min_landmark_confidence : ℚ
  depth_threshold : ℚ
  depth_filter_enabled : Bool
  violation_min_duration : ℚ   -- line 43 (never read by the state machine)
  hysteresis : ℚ               -- line 54 (set to 0)
  min_rom_degrees : ℚ          -- line 100 (set to 0: ROM requirement disabled)
  history_length : ℕ           -- line 130 (set to 12)
deriving DecidableEq, Repr

/-- Constructor defaults (lines 15-22) together with the hard-coded attributes
`violation_min_duration = 0.25`, `hysteresis = 0`, `min_rom_degrees = 0`,
`history_length = 12`. -/
def mkConfig (down up torso hold conf depth : ℚ) (dfe : Bool) : Config :=
  { angle_threshold_down := down
    angle_threshold_up := up
    torso_angle_threshold := torso
    min_hold_time := hold
    min_landmark_confidence := conf
    depth_threshold := depth
    depth_filter_enabled := dfe
    violation_min_duration := 1/4
    hysteresis := 0
    min_rom_degrees := 0
    history_length := 12 }

/-- `BicepsCurlCounter()` with all keyword defaults:
160, 50, 30, 0.2, 0.5, 0.1, True. -/
def defaultConfig : Config := mkConfig 160 50 30 (1/5) (1/2) (1/10) true

/-- Mutable per-arm attributes of `BicepsCurlCounter` (the `left_*` family; the
`right_*` family is field-for-field identical). -/
structure ArmState where
  state : Level
  last_state_time : ℚ
  angle_history : List ℚ
  previous_state : Level
  rep_is_valid : Bool
  /-- `*_pending_state` and `*_pending_since` are always assigned together in
  the source (both `None` or both set), so they are embedded as one option. -/
  pending : Option (Level × ℚ)
  visited_down : Bool
  visited_transition : Bool
  visited_up : Bool
  started_from_down : Bool
  reached_up_in_cycle : Bool
  descending_to_down : Bool
  torso_violation_during_transition : Bool
  invalid_reasons : Reasons
  last_rep_reasons : List Reason
  min_angle_in_rep : Option ℚ
  max_angle_in_rep : Option ℚ
  hit_up : Bool
  hit_down : Bool
  reps : ℕ
  correct_reps : ℕ
  incorrect_reps : ℕ
  torso_angles : List ℚ
  max_torso_angle : ℚ
  arm_visible : Bool
  avg_confidence : ℚ
  visibility_message : String
  alignment_warning : Bool
  raw_angle : Option ℚ
  cycle_index : ℕ
deriving DecidableEq, Repr

/-- Whole-object mutable state of `BicepsCurlCounter`. -/
structure CounterState where
  left : ArmState
  right : ArmState
  total_reps : ℕ
  debug_mode : Bool
deriving DecidableEq, Repr

/-- One call of `update` (lines 147-151): the per-frame inputs.  `t` stands for
the `time.time()` read at line 152. -/
structure Frame where
  left_arm_angle : Option ℚ
  right_arm_angle : Option ℚ
  left_alignment : Bool
  right_alignment : Bool
  left_torso_angle : ℚ
  right_torso_angle : ℚ
  left_arm_visible : Bool
  right_arm_visible : Bool
  left_confidence : ℚ
  right_confidence : ℚ
  t : ℚ
deriving DecidableEq, Repr

/-- The inputs of one side of a `Frame`. -/
structure SideInput where
  arm_angle : Option ℚ
  alignment : Bool
  torso_angle : ℚ
  arm_visible : Bool
  confidence : ℚ
deriving DecidableEq, Repr

def Frame.leftInput (f : Frame) : SideInput :=
  { arm_angle := f.left_arm_angle, alignment := f.left_alignment,
    torso_angle := f.left_torso_angle, arm_visible := f.left_arm_visible,
    confidence := f.left_confidence }

def Frame.rightInput (f : Frame) : SideInput :=
  { arm_angle := f.right_arm_angle, alignment := f.right_alignment,
    torso_angle := f.right_torso_angle, arm_visible := f.right_arm_visible,
    confidence := f.right_confidence }

/-- Initial per-arm state written by `__init__` (lines 43-145); `t` is the
`time.time()` read for `*_last_state_time`. -/
def initArm (t : ℚ) : ArmState :=
  { state := Level.unknown
    last_state_time := t
    angle_history := []
    previous_state := Level.unknown
    rep_is_valid := true
    pending := none
    visited_down := false
    visited_transition := false
    visited_up := false
    started_from_down := false
    reached_up_in_cycle := false
    descending_to_down := false
    torso_violation_during_transition := false
    invalid_reasons := {}
    last_rep_reasons := []
    min_angle_in_rep := none
    max_angle_in_rep := none
    hit_up := false
    hit_down := false
    reps := 0
    correct_reps := 0
    incorrect_reps := 0
    torso_angles := []
    max_torso_angle := 0
    arm_visible := true
    avg_confidence := 1
    visibility_message := ""
    alignment_warning := false
    raw_angle := none
    cycle_index := 0 }

/-- Freshly constructed `BicepsCurlCounter` (the two `time.time()` reads of
lines 75 and 113 are modelled by the single timestamp parameter). -/
def initState (t : ℚ) : CounterState :=
  { left := initArm t, right := initArm t, total_reps := 0, debug_mode := true }

/-- `np.mean` over a history list. -/
def listMean (l : List ℚ) : ℚ := l.sum / (l.length : ℚ)

/-- Python `list.append(x)` followed by `if len(list) > cap: list.pop(0)`
(lines 182-184, 196-199, 246-248). -/
def pushTrim (cap : ℕ) (l : List ℚ) (x : ℚ) : List ℚ :=
  let l' := l ++ [x]
  if cap < l'.length then l'.tail else l'

/-- Helper `_update_violation_timers` of `update` (lines 175-205), for one
side: track the max torso angle, push the torso angle into the 3-frame sliding
window, and set the sticky violation flag when the full window's average
exceeds the threshold. -/
def violationTimers (cfg : Config) (a : ArmState) (torso_angle : ℚ) : ArmState :=
  let w := pushTrim 3 a.torso_angles torso_angle
  { a with
    max_torso_angle := max a.max_torso_angle torso_angle
    torso_angles := w
    torso_violation_during_transition :=
      if w.length = 3 ∧ cfg.torso_angle_threshold < listMean w then true
      else a.torso_violation_during_transition }

/-- Raw-angle threshold classification (lines 270-279): strictly above the
down threshold gives DOWN, strictly below the up threshold gives UP, otherwise
TRANSITION. -/
def proposeLevel (cfg : Config) (angle : ℚ) : Level :=
  if cfg.angle_threshold_down < angle then Level.down
  else if angle < cfg.angle_threshold_up then Level.up
  else Level.transition

/-- Dwell logic (lines 284-295): returns the commit decision and the written-
back pending pair. -/
def dwellStep (cfg : Config) (state : Level) (pending : Option (Level × ℚ))
    (proposed : Level) (t : ℚ) : Bool × Option (Level × ℚ) :=
  if proposed = state then (false, none)
  else
    match pending with
    | some (p, since) =>
      if p = proposed then
        if cfg.min_hold_time ≤ t - since then (true, some (p, since))
        else (false, some (p, since))
      else (false, some (proposed, t))
    | none => (false, some (proposed, t))

/-- Cycle-close block of `_update_arm_state` (lines 372-487 minus the final
state write): rebuild the rejection reasons, count the rep when the ordered
progress flags all hold, reset the ordered flags and the histories.  The
returned boolean says whether `_increment_rep` ran (the arm-side counters are
updated here, mirroring lines 516-538; `total_reps` is added by the caller). -/
def closeCycle (cfg : Config) (a : ArmState) : ArmState × Bool :=
  -- line 377: clear previous reasons, then rebuild them one check at a time
  let rs0 : Reasons := {}
  let v1 := if a.visited_down then a.rep_is_valid else false
  let rs1 := if a.visited_down then rs0 else { rs0 with notReachDown := true }
  let v2 := if a.visited_transition then v1 else false
  let rs2 := if a.visited_transition then rs1 else { rs1 with noTransition := true }
  let v3 := if a.visited_up then v2 else false
  let rs3 := if a.visited_up then rs2 else { rs2 with notReachUp := true }
  let v4 := if a.torso_violation_during_transition then false else v3
  let rs4 := if a.torso_violation_during_transition then { rs3 with torsoExceeded := true } else rs3
  -- lines 398-403: ROM check (rom defaults to 0.0 when an extremum is missing)
  let rom : ℚ :=
    match a.min_angle_in_rep, a.max_angle_in_rep with
    | some mn, some mx => mx - mn
    | _, _ => 0
  let v5 := if 0 < cfg.min_rom_degrees ∧ rom < cfg.min_rom_degrees then false else v4
  let rs5 := if 0 < cfg.min_rom_degrees ∧ rom < cfg.min_rom_degrees then { rs4 with insufficientRom := true } else rs4
  -- line 408: finalize the last-rep reason list
  let lastReasons := if v5 then [] else rs5.toSortedList
  -- lines 443-450: count only on the full ordered sequence
  let should_count := a.started_from_down && a.reached_up_in_cycle && a.descending_to_down
  ({ a with
      rep_is_valid := v5
      invalid_reasons := rs5
      last_rep_reasons := lastReasons
      -- lines 452-457 and 516-538: increments when counted
      reps := if should_count then a.reps + 1 else a.reps
      correct_reps := if should_count && v5 then a.correct_reps + 1 else a.correct_reps
      incorrect_reps := if should_count && !v5 then a.incorrect_reps + 1 else a.incorrect_reps
      cycle_index := if should_count then a.cycle_index + 1 else a.cycle_index
      -- lines 460-467: always reset the progress flags after landing in DOWN
      started_from_down := false
      reached_up_in_cycle := false
      descending_to_down := false
      -- lines 469-475: reset angle history and torso window for the new rep
      angle_history := []
      torso_angles := [] },
   should_count)

/-- Commit block of `_update_arm_state` (lines 298-507): visited bookkeeping,
ordered-progress flags, cycle-start resets, cycle close, and the final state
write.  `st` is the committed level before the call, `new_state` the committed
proposal. -/
def commitArm (cfg : Config) (a : ArmState) (st new_state : Level) (t : ℚ) :
    ArmState × Bool :=
  -- lines 302-308: visited flags (the commit into DOWN itself sets visited_down)
  let vD := if new_state = Level.down then true else a.visited_down
  let vT := if new_state = Level.transition then true else a.visited_transition
  let vU := if new_state = Level.up then true else a.visited_up
  -- lines 309-320: ordered-sequence progress flags, in source statement order
  let isStart := st = Level.down ∧ (new_state = Level.transition ∨ new_state = Level.up)
  let started := if isStart then true else a.started_from_down
  let reached0 := if isStart then false else a.reached_up_in_cycle
  let desc0 := if isStart then false else a.descending_to_down
  let reached := if new_state = Level.up ∧ started = true then true else reached0
  let desc := if st = Level.up ∧ new_state = Level.transition ∧ reached = true then true else desc0
  let a2 := { a with
    visited_down := vD, visited_transition := vT, visited_up := vU,
    started_from_down := started, reached_up_in_cycle := reached,
    descending_to_down := desc }
  -- lines 338-369: cycle start (DOWN -> TRANSITION/UP) resets the per-cycle
  -- fields; visited_down is deliberately not reset (comment at line 347)
  let a3 :=
    if isStart then
      { a2 with
        rep_is_valid := true
        invalid_reasons := {}
        min_angle_in_rep := none
        max_angle_in_rep := none
        hit_up := false
        hit_down := false
        visited_transition := false
        visited_up := false
        torso_violation_during_transition := false
        torso_angles := [] }
    else a2
  -- lines 372-487: cycle close (UP/TRANSITION -> DOWN)
  let isClose := (st = Level.up ∨ st = Level.transition) ∧ new_state = Level.down
  let r := if isClose then closeCycle cfg a3 else (a3, false)
  -- lines 498-507: write the new committed state and clear the pending pair
  ({ r.1 with
      previous_state := st
      state := new_state
      last_state_time := t
      pending := none },
   r.2)

/-- `_update_arm_state` (lines 225-514) for one arm: smoothing history, ROM
tracking, threshold-hit flags, raw-angle classification, dwell, and (on
commit) the commit block.  The returned boolean says whether a rep was
counted. -/
def updateArm (cfg : Config) (a : ArmState) (angle torso_angle : ℚ)
    (is_aligned : Bool) (current_time : ℚ) : ArmState × Bool :=
  -- lines 246-249 (the smoothed angle itself is computed but never used)
  let history := pushTrim cfg.history_length a.angle_history angle
  -- lines 252-255: ROM extrema on the raw angle
  let romGo := a.min_angle_in_rep ≠ none ∨ a.state ≠ Level.down
  let minA := if romGo then
      some (match a.min_angle_in_rep with | none => angle | some m => min m angle)
    else a.min_angle_in_rep
  let maxA := if romGo then
      some (match a.max_angle_in_rep with | none => angle | some m => max m angle)
    else a.max_angle_in_rep
  -- lines 257-260: threshold-hit flags (with the hysteresis attribute, = 0)
  let hitU := if angle ≤ cfg.angle_threshold_up + cfg.hysteresis then true else a.hit_up
  let hitD := if cfg.angle_threshold_down - cfg.hysteresis ≤ angle then true else a.hit_down
  -- lines 274-279
  let proposed := proposeLevel cfg angle
  -- lines 284-295
  let dw := dwellStep cfg a.state a.pending proposed current_time
  let a1 := { a with
    angle_history := history, min_angle_in_rep := minA, max_angle_in_rep := maxA,
    hit_up := hitU, hit_down := hitD }
  if dw.1 then commitArm cfg a1 a.state proposed current_time
  else ({ a1 with pending := dw.2 }, false)

/-- Percentage rendered by the Python f-string `{conf*100:.0f}` in the
visibility messages (rounding convention up to ties). -/
def fmtConf (q : ℚ) : Int := round (q * 100)

/-- The side-effect-free prefix of `update` for one side (lines 152-215):
visibility echo and message (lines 154-169), alignment warning (lines
171-172), torso violation timers while the arm is not committed DOWN (lines
207-211), and the raw angle echo (lines 213-215). -/
def preArm (cfg : Config) (isLeft : Bool) (a : ArmState) (inp : SideInput) : ArmState :=
  let msg := if inp.arm_visible then "" else
    (if isLeft then "Sol" else "Sağ") ++ " kol net görünmüyor (güven: " ++
      toString (fmtConf inp.confidence) ++ "%)"
  let a1 := { a with
    arm_visible := inp.arm_visible
    avg_confidence := inp.confidence
    visibility_message := msg
    alignment_warning := !inp.alignment }
  let a2 := if a1.state ≠ Level.down then violationTimers cfg a1 inp.torso_angle else a1
  { a2 with raw_angle := inp.arm_angle }

/-- The portion of `update` (lines 152-223) that touches one side: the
bookkeeping prefix `preArm` followed by the gated `_update_arm_state` call
(lines 217-221).  Returns the updated arm and whether a rep was counted. -/
def stepSide (cfg : Config) (isLeft : Bool) (a : ArmState) (inp : SideInput)
    (t : ℚ) : ArmState × Bool :=
  let a3 := preArm cfg isLeft a inp
  match inp.arm_angle with
  | some ang =>
    if inp.arm_visible then updateArm cfg a3 ang inp.torso_angle inp.alignment t
    else (a3, false)
  | none => (a3, false)

/-- `BicepsCurlCounter.update` (lines 147-223): both sides are processed (each
side's code block only reads and writes that side's attributes), and
`total_reps` grows by one for each side whose `_increment_rep` ran. -/
def update (cfg : Config) (s : CounterState) (f : Frame) : CounterState :=
  let l := stepSide cfg true s.left f.leftInput f.t
  let r := stepSide cfg false s.right f.rightInput f.t
  { s with
    left := l.1
    right := r.1
    total_reps := s.total_reps + (if l.2 then 1 else 0) + (if r.2 then 1 else 0) }

/-- A whole session: fold `update` over the frame inputs. -/
def run (cfg : Config) (s : CounterState) (fs : List Frame) : CounterState :=
  fs.foldl (update cfg) s

/-- The dictionary returned by `get_status` (lines 544-579). -/
structure Status where
  left_reps : ℕ
  right_reps : ℕ
  left_correct_reps : ℕ
  right_correct_reps : ℕ
  left_incorrect_reps : ℕ
  right_incorrect_reps : ℕ
  total_reps : ℕ
  left_state : Level
  right_state : Level
  left_alignment_warning : Bool
  right_alignment_warning : Bool
  is_active : Bool
  left_last_rep_reasons : List Reason
  right_last_rep_reasons : List Reason
  left_raw_angle : Option ℚ
  right_raw_angle : Option ℚ
  left_smoothed_angle : Option ℚ
  right_smoothed_angle : Option ℚ
  left_cycle_index : ℕ
  right_cycle_index : ℕ
  left_arm_visible : Bool
  right_arm_visible : Bool
  left_avg_confidence : ℚ
  right_avg_confidence : ℚ
  left_visibility_message : String
  right_visibility_message : String
deriving DecidableEq, Repr

/-- `get_status` (lines 544-579). -/
def getStatus (s : CounterState) : Status :=
  { left_reps := s.left.reps
    right_reps := s.right.reps
    left_correct_reps := s.left.correct_reps
    right_correct_reps := s.right.correct_reps
    left_incorrect_reps := s.left.incorrect_reps
    right_incorrect_reps := s.right.incorrect_reps
    total_reps := s.total_reps
    left_state := s.left.state
    right_state := s.right.state
    left_alignment_warning := s.left.alignment_warning
    right_alignment_warning := s.right.alignment_warning
    is_active := !(s.left.state = Level.unknown && s.right.state = Level.unknown)
    left_last_rep_reasons := s.left.last_rep_reasons
    right_last_rep_reasons := s.right.last_rep_reasons
    left_raw_angle := s.left.raw_angle
    right_raw_angle := s.right.raw_angle
    left_smoothed_angle :=
      if s.left.angle_history = [] then none else some (listMean s.left.angle_history)
    right_smoothed_angle :=
      if s.right.angle_history = [] then none else some (listMean s.right.angle_history)
    left_cycle_index := s.left.cycle_index
    right_cycle_index := s.right.cycle_index
    left_arm_visible := s.left.arm_visible
    right_arm_visible := s.right.arm_visible
    left_avg_confidence := s.left.avg_confidence
    right_avg_confidence := s.right.avg_confidence
    left_visibility_message := s.left.visibility_message
    right_visibility_message := s.right.visibility_message }

/-- One side of `reset` (lines 581-640): the fields the method writes back to
their constructor values.  `previous_state`, `arm_visible`, `avg_confidence`
and `visibility_message` are not assigned by `reset` and keep their current
values; `t` is the `time.time()` read for `*_last_state_time`. -/
def resetArm (a : ArmState) (t : ℚ) : ArmState :=
  { a with
    reps := 0
    correct_reps := 0
    incorrect_reps := 0
    state := Level.unknown
    last_state_time := t
    angle_history := []
    alignment_warning := false
    rep_is_valid := true
    pending := none
    invalid_reasons := {}
    last_rep_reasons := []
    min_angle_in_rep := none
    max_angle_in_rep := none
    hit_up := false
    hit_down := false
    max_torso_angle := 0
    visited_down := false
    visited_transition := false
    visited_up := false
    started_from_down := false
    reached_up_in_cycle := false
    descending_to_down := false
    torso_violation_during_transition := false
    raw_angle := none
    torso_angles := []
    cycle_index := 0 }

/-- `reset` (lines 581-642).  `debug_mode` is likewise untouched. -/
def resetState (s : CounterState) (t : ℚ) : CounterState :=
  { s with
    left := resetArm s.left t
    right := resetArm s.right t
    total_reps := 0 }

/-- An `ArmState` with its (write-only) commit timestamp forgotten; used to
state that the observable behaviour does not depend on the wall-clock value
stored at construction time. -/
def eraseTime (a : ArmState) : ArmState := { a with last_state_time := 0 }

/-- Both sides' commit timestamps forgotten. -/
def eraseTimes (s : CounterState) : CounterState :=
  { s with left := eraseTime s.left, right := eraseTime s.right }

set_option maxHeartbeats 2000000
set_option maxRecDepth 8000

attribute [local semireducible] Rat.add Rat.sub Rat.mul Rat.inv Rat.ofScientific

lemma contains_toSortedList_notReachDown (r : Reasons) :
    r.toSortedList.contains Reason.notReachDown = r.notReachDown := by
  rcases r with ⟨d, n, u, tv, i⟩
  cases d <;> cases n <;> cases u <;> cases tv <;> cases i <;> rfl

lemma contains_toSortedList_notReachUp (r : Reasons) :
    r.toSortedList.contains Reason.notReachUp = r.notReachUp := by
  rcases r with ⟨d, n, u, tv, i⟩
  cases d <;> cases n <;> cases u <;> cases tv <;> cases i <;> rfl

lemma contains_toSortedList_torsoExceeded (r : Reasons) :
    r.toSortedList.contains Reason.torsoExceeded = r.torsoExceeded := by
  rcases r with ⟨d, n, u, tv, i⟩
  cases d <;> cases n <;> cases u <;> cases tv <;> cases i <;> rfl

lemma notReachDown_ite (c : Prop) [Decidable c] (r s : Reasons) :
    (if c then r else s).notReachDown = if c then r.notReachDown else s.notReachDown := by
  split <;> rfl

lemma notReachUp_ite (c : Prop) [Decidable c] (r s : Reasons) :
    (if c then r else s).notReachUp = if c then r.notReachUp else s.notReachUp := by
  split <;> rfl

lemma torsoExceeded_ite (c : Prop) [Decidable c] (r s : Reasons) :
    (if c then r else s).torsoExceeded = if c then r.torsoExceeded else s.torsoExceeded := by
  split <;> rfl

lemma mem_toSortedList_notReachDown (r : Reasons) :
    Reason.notReachDown ∈ r.toSortedList ↔ r.notReachDown = true := by
  rcases r with ⟨d, n, u, tv, i⟩
  cases d <;> cases n <;> cases u <;> cases tv <;> cases i <;> decide

lemma mem_toSortedList_notReachUp (r : Reasons) :
    Reason.notReachUp ∈ r.toSortedList ↔ r.notReachUp = true := by
  rcases r with ⟨d, n, u, tv, i⟩
  cases d <;> cases n <;> cases u <;> cases tv <;> cases i <;> decide

lemma mem_toSortedList_torsoExceeded (r : Reasons) :
    Reason.torsoExceeded ∈ r.toSortedList ↔ r.torsoExceeded = true := by
  rcases r with ⟨d, n, u, tv, i⟩
  cases d <;> cases n <;> cases u <;> cases tv <;> cases i <;> decide

/-- Frame with only the left arm measured (the right angle is absent). -/
def leftFrame (a : Option ℚ) (g t : ℚ) : Frame :=
  { left_arm_angle := a, right_arm_angle := none,
    left_alignment := true, right_alignment := true,
    left_torso_angle := g, right_torso_angle := 0,
    left_arm_visible := true, right_arm_visible := true,
    left_confidence := 1, right_confidence := 1, t := t }

lemma updateArm_same_level (cfg : Config) (a : ArmState) (angle g : ℚ) (al : Bool)
    (t : ℚ) (h : proposeLevel cfg angle = a.state) :
    (updateArm cfg a angle g al t).1.state = a.state ∧
    (updateArm cfg a angle g al t).1.pending = none ∧
    (updateArm cfg a angle g al t).2 = false := by
  simp [updateArm, dwellStep, h]

lemma updateArm_pend_none (cfg : Config) (a : ArmState) (angle g : ℚ) (al : Bool)
    (t : ℚ) (hne : proposeLevel cfg angle ≠ a.state) (hpend : a.pending = none) :
    (updateArm cfg a angle g al t).1.state = a.state ∧
    (updateArm cfg a angle g al t).1.pending = some (proposeLevel cfg angle, t) ∧
    (updateArm cfg a angle g al t).2 = false := by
  simp [updateArm, dwellStep, hne, hpend]

/-- When the raw level differs from the committed level, the pending pair
matches it and the dwell has matured, `_update_arm_state` runs its commit
block on the bookkeeping-updated arm state. -/
lemma updateArm_commit_eq (cfg : Config) (a : ArmState) (angle g : ℚ) (al : Bool)
    (t since : ℚ) (p : Level)
    (hpne : p ≠ a.state)
    (hp : proposeLevel cfg angle = p)
    (hpend : a.pending = some (p, since))
    (hdw : cfg.min_hold_time ≤ t - since) :
    updateArm cfg a angle g al t =
      commitArm cfg
        { a with
          angle_history := pushTrim cfg.history_length a.angle_history angle
          min_angle_in_rep :=
            if a.min_angle_in_rep ≠ none ∨ a.state ≠ Level.down then
              some (match a.min_angle_in_rep with | none => angle | some m => min m angle)
            else a.min_angle_in_rep
          max_angle_in_rep :=
            if a.min_angle_in_rep ≠ none ∨ a.state ≠ Level.down then
              some (match a.max_angle_in_rep with | none => angle | some m => max m angle)
            else a.max_angle_in_rep
          hit_up := if angle ≤ cfg.angle_threshold_up + cfg.hysteresis then true else a.hit_up
          hit_down := if cfg.angle_threshold_down - cfg.hysteresis ≤ angle then true else a.hit_down }
        a.state p t := by
  have hd : dwellStep cfg a.state a.pending p t = (true, some (p, since)) := by
    rw [hpend]
    simp [dwellStep, hdw, hpne]
  simp only [updateArm, hp, hd, reduceIte]

/-- C7 counterexample: with the default thresholds (160 and 50), an angle
exactly equal to `angle_threshold_down` is proposed TRANSITION, not DOWN, and
an angle exactly equal to `angle_threshold_up` is proposed TRANSITION, not UP:
the source compares strictly (`angle > 160`, `angle < 50`, lines 274-279). -/
theorem C7_counterexample :
    proposeLevel defaultConfig 160 = Level.transition ∧
    proposeLevel defaultConfig 50 = Level.transition ∧
    Level.transition ≠ Level.down ∧ Level.transition ≠ Level.up := by
  decide

/-- C7 (amended): for every raw angle, the proposed level is DOWN exactly when
the angle is strictly above `angle_threshold_down`, UP exactly when it is
strictly below `angle_threshold_up`, and TRANSITION exactly when it lies in
the closed interval between the two thresholds (assuming the up threshold does
not exceed the down threshold, as in the defaults). -/
theorem C7_amended_thm (cfg : Config) (angle : ℚ)
    (h : cfg.angle_threshold_up ≤ cfg.angle_threshold_down) :
    (proposeLevel cfg angle = Level.down ↔ cfg.angle_threshold_down < angle) ∧
    (proposeLevel cfg angle = Level.up ↔ angle < cfg.angle_threshold_up) ∧
    (proposeLevel cfg angle = Level.transition ↔
      cfg.angle_threshold_up ≤ angle ∧ angle ≤ cfg.angle_threshold_down) := by
  unfold proposeLevel
  split_ifs with h1 h2
  · exact ⟨⟨fun _ => h1, fun _ => rfl⟩,
      ⟨False.elim, fun hlt => by linarith⟩,
      ⟨False.elim, fun hin => by linarith [hin.2]⟩⟩
  · exact ⟨⟨False.elim, fun hlt => h1 hlt⟩,
      ⟨fun _ => h2, fun _ => rfl⟩,
      ⟨False.elim, fun hin => absurd hin.1 (not_le.mpr h2)⟩⟩
  · exact ⟨⟨False.elim, fun hlt => h1 hlt⟩,
      ⟨False.elim, fun hlt => h2 hlt⟩,
      ⟨fun _ => ⟨le_of_not_lt h2, le_of_not_lt h1⟩, fun _ => rfl⟩⟩

/-- C7 amended theorem instantiated at the default thresholds and angle 100°. -/
theorem C7_amended_witness :
    defaultConfig.angle_threshold_up ≤ defaultConfig.angle_threshold_down ∧
    (proposeLevel defaultConfig 100 = Level.transition ↔
      defaultConfig.angle_threshold_up ≤ (100 : ℚ) ∧
        (100 : ℚ) ≤ defaultConfig.angle_threshold_down) :=
  ⟨by decide, (C7_amended_thm defaultConfig 100 (by decide)).2.2⟩

/-- Frame with the left arm reported not visible (angle still measured), used
to exhibit the fields that `reset` does not restore. -/
def invisibleLeftFrame : Frame :=
  { left_arm_angle := some 100, right_arm_angle := none,
    left_alignment := true, right_alignment := true,
    left_torso_angle := 0, right_torso_angle := 0,
    left_arm_visible := false, right_arm_visible := true,
    left_confidence := 1/5, right_confidence := 1, t := 0 }

/-- C9 counterexample: after one frame with the left arm not visible, `reset`
leaves `left_arm_visible = False`, `left_avg_confidence = 0.2` and a non-empty
visibility message, while a freshly constructed tracker has
`left_arm_visible = True`, confidence 1 and an empty message: `reset` (lines
581-642) never assigns the visibility/confidence/message fields (nor the
previous-state fields). -/
theorem C9_counterexample :
    (resetState (update defaultConfig (initState 0) invisibleLeftFrame) 0).left.arm_visible
        = false ∧
    (initState 0).left.arm_visible = true ∧
    (resetState (update defaultConfig (initState 0) invisibleLeftFrame) 0).left.avg_confidence
        ≠ (initState 0).left.avg_confidence ∧
    (resetState (update defaultConfig (initState 0) invisibleLeftFrame) 0).left.visibility_message
        ≠ (initState 0).left.visibility_message := by
  decide

/-- C9 (amended): `reset` restores every field to its freshly-constructed
value except the previous committed level, the visibility flag, the average
confidence and the visibility message of each arm (and the debug flag), which
keep their pre-reset values. -/
theorem C9_amended_thm (s : CounterState) (t : ℚ) :
    resetState s t =
      { initState t with
        left := { initArm t with
          previous_state := s.left.previous_state
          arm_visible := s.left.arm_visible
          avg_confidence := s.left.avg_confidence
          visibility_message := s.left.visibility_message }
        right := { initArm t with
          previous_state := s.right.previous_state
          arm_visible := s.right.arm_visible
          avg_confidence := s.right.avg_confidence
          visibility_message := s.right.visibility_message }
        debug_mode := s.debug_mode } := by
  rcases s with ⟨l, r, tot, dbg⟩
  rcases l with ⟨⟩ <;> rcases r with ⟨⟩
  rfl

/-- C4: for every committed level and positive `min_hold_time`, a single-frame
spike whose raw angle classifies away from the committed level, flanked by
frames classifying back to that level, never commits: the committed level is
unchanged after all three frames, the spike frame only starts a pending
transition (which is no commit), and the reverting frame clears the pending
transition. -/
theorem C4_thm (cfg : Config) (a : ArmState) (b1 b2 b3 g1 g2 g3 : ℚ)
    (al1 al2 al3 : Bool) (t1 t2 t3 : ℚ)
    (hprev : proposeLevel cfg b1 = a.state)
    (hspike : proposeLevel cfg b2 ≠ a.state)
    (hrev : proposeLevel cfg b3 = a.state)
    (hhold : 0 < cfg.min_hold_time)
    (hfast : t3 - t2 < cfg.min_hold_time) :
    (updateArm cfg a b1 g1 al1 t1).1.state = a.state ∧
    (updateArm cfg (updateArm cfg a b1 g1 al1 t1).1 b2 g2 al2 t2).1.state = a.state ∧
    (updateArm cfg (updateArm cfg a b1 g1 al1 t1).1 b2 g2 al2 t2).2 = false ∧
    (updateArm cfg (updateArm cfg (updateArm cfg a b1 g1 al1 t1).1 b2 g2 al2 t2).1
        b3 g3 al3 t3).1.state = a.state ∧
    (updateArm cfg (updateArm cfg (updateArm cfg a b1 g1 al1 t1).1 b2 g2 al2 t2).1
        b3 g3 al3 t3).2 = false ∧
    (updateArm cfg (updateArm cfg (updateArm cfg a b1 g1 al1 t1).1 b2 g2 al2 t2).1
        b3 g3 al3 t3).1.pending = none := by
  obtain ⟨e1s, e1p, -⟩ := updateArm_same_level cfg a b1 g1 al1 t1 hprev
  obtain ⟨e2s, e2p, e2c⟩ := updateArm_pend_none cfg (updateArm cfg a b1 g1 al1 t1).1
    b2 g2 al2 t2 (by rw [e1s]; exact hspike) e1p
  have e12s : (updateArm cfg (updateArm cfg a b1 g1 al1 t1).1 b2 g2 al2 t2).1.state
      = a.state := e2s.trans e1s
  obtain ⟨e3s, e3p, e3c⟩ := updateArm_same_level cfg
    (updateArm cfg (updateArm cfg a b1 g1 al1 t1).1 b2 g2 al2 t2).1 b3 g3 al3 t3
    (by rw [e12s]; exact hrev)
  exact ⟨e1s, e12s, e2c, e3s.trans e12s, e3c, e3p⟩

/-- Arm state in committed TRANSITION with a matured pending DOWN and the
ordered-progress flags of a half cycle that never reached UP. -/
def cexArmHalf : ArmState :=
  { initArm 0 with
    state := Level.transition
    pending := some (Level.down, 0)
    started_from_down := true
    visited_down := true }

/-- Arm state committed DOWN with no pending transition. -/
def cexArmIdle : ArmState := { initArm 0 with state := Level.down }

/-- C4 theorem instantiated: committed DOWN at the default thresholds, a
one-frame spike to 100° between two 170° frames, with frames 0.1 s apart. -/
theorem C4_witness :
    (updateArm defaultConfig cexArmIdle 170 0 true 0).1.state = Level.down ∧
    (updateArm defaultConfig (updateArm defaultConfig cexArmIdle
        170 0 true 0).1 100 0 true (1/10)).1.state = Level.down ∧
    (updateArm defaultConfig (updateArm defaultConfig (updateArm defaultConfig
        cexArmIdle 170 0 true 0).1 100 0 true (1/10)).1
        170 0 true (2/10)).1.state = Level.down ∧
    (updateArm defaultConfig (updateArm defaultConfig (updateArm defaultConfig
        cexArmIdle 170 0 true 0).1 100 0 true (1/10)).1
        170 0 true (2/10)).1.pending = none := by
  have h := C4_thm defaultConfig cexArmIdle
    170 100 170 0 0 0 true true true 0 (1/10) (2/10)
    (by decide) (by decide) (by decide) (by decide) (by decide)
  exact ⟨h.1, h.2.1, h.2.2.2.1, h.2.2.2.2.2⟩

/-- C2 (amended): at a cycle close (commit from UP or TRANSITION into DOWN), a
rep is counted exactly when `started_from_down`, `reached_up_in_cycle` and
`descending_to_down` all hold at that instant, and a discarded close changes
no rep/correct/incorrect counter — but the stored last-rep reason list is
still rebuilt at every close, so a DOWN→TRANSITION→DOWN bounce (which left
`visited_up` false) overwrites it with a list containing the did-not-reach-UP
reason rather than leaving it unchanged. -/
theorem C2_thm (cfg : Config) (a : ArmState) (angle g : ℚ) (al : Bool)
    (t since : ℚ)
    (hst : a.state = Level.up ∨ a.state = Level.transition)
    (hp : proposeLevel cfg angle = Level.down)
    (hpend : a.pending = some (Level.down, since))
    (hdw : cfg.min_hold_time ≤ t - since) :
    ((updateArm cfg a angle g al t).2 =
      (a.started_from_down && a.reached_up_in_cycle && a.descending_to_down)) ∧
    ((a.started_from_down && a.reached_up_in_cycle && a.descending_to_down) = false →
      (updateArm cfg a angle g al t).1.reps = a.reps ∧
      (updateArm cfg a angle g al t).1.correct_reps = a.correct_reps ∧
      (updateArm cfg a angle g al t).1.incorrect_reps = a.incorrect_reps) ∧
    (a.visited_up = false →
      (updateArm cfg a angle g al t).1.last_rep_reasons.contains Reason.notReachUp
        = true) := by
  have hne : a.state ≠ Level.down := by
    rcases hst with h | h <;> rw [h] <;> exact fun hc => Level.noConfusion hc
  rw [updateArm_commit_eq cfg a angle g al t since Level.down (Ne.symm hne) hp hpend hdw]
  refine ⟨?_, fun hsc => ?_, fun hvu => ?_⟩
  · simp [commitArm, closeCycle, hne, hst]
  · simp [commitArm, closeCycle, hne, hst, hsc]
  · simp [commitArm, closeCycle, hne, hst, hvu, contains_toSortedList_notReachUp,
      mem_toSortedList_notReachUp, notReachUp_ite]

/-- The DOWN, TRANSITION, DOWN bounce of C2: commit DOWN, commit TRANSITION
(cycle start), commit DOWN again without ever proposing UP. -/
def bounceFrames : List Frame :=
  [ leftFrame (some 170) 0 0, leftFrame (some 170) 0 1,
    leftFrame (some 100) 0 2, leftFrame (some 100) 0 3,
    leftFrame (some 170) 0 4, leftFrame (some 170) 0 5 ]

/-- C2 counterexample: on the bounce `DOWN, TRANSITION, DOWN` (committed after
frames 2, 4 and 6 respectively, never committing UP) no counter changes, but
the left arm's stored last-rep reason list — empty before the run — is
rebuilt to the two-reason list "did not reach UP" / "no transition": the close
at line 408 of the source overwrites it even for discarded cycles. -/
theorem C2_counterexample :
    (run defaultConfig (initState 0) (bounceFrames.take 2)).left.state = Level.down ∧
    (run defaultConfig (initState 0) (bounceFrames.take 4)).left.state = Level.transition ∧
    (run defaultConfig (initState 0) bounceFrames).left.state = Level.down ∧
    (run defaultConfig (initState 0) bounceFrames).left.reps = 0 ∧
    (run defaultConfig (initState 0) bounceFrames).left.correct_reps = 0 ∧
    (run defaultConfig (initState 0) bounceFrames).left.incorrect_reps = 0 ∧
    (run defaultConfig (initState 0) bounceFrames).total_reps = 0 ∧
    (initState 0).left.last_rep_reasons = [] ∧
    (run defaultConfig (initState 0) bounceFrames).left.last_rep_reasons =
      [Reason.notReachUp, Reason.noTransition] := by
  decide

/-- Arm state in committed TRANSITION with a matured pending DOWN whose cycle
reached UP and is descending: the counted-close configuration. -/
def cexArmFull : ArmState :=
  { initArm 0 with
    state := Level.transition
    pending := some (Level.down, 0)
    started_from_down := true
    reached_up_in_cycle := true
    descending_to_down := true
    visited_down := true
    visited_transition := true }

/-- C2 theorem instantiated at a close of the half cycle `cexArmHalf` (which
never reached UP): the rep is discarded, counters stay 0, and the rebuilt
reason list contains the did-not-reach-UP reason. -/
theorem C2_witness :
    (updateArm defaultConfig cexArmHalf 170 0 true 1).2 = false ∧
    (updateArm defaultConfig cexArmHalf 170 0 true 1).1.reps = cexArmHalf.reps ∧
    (updateArm defaultConfig cexArmHalf 170 0 true 1).1.last_rep_reasons.contains
      Reason.notReachUp = true := by
  have h := C2_thm defaultConfig cexArmHalf 170 0 true 1 0
    (Or.inr rfl) (by decide) rfl (by decide)
  refine ⟨?_, (h.2.1 (by decide)).1, h.2.2 rfl⟩
  rw [h.1]; decide

/-- C8 (amended): a committed transition out of DOWN into TRANSITION or UP
(cycle start) resets the per-cycle fields — `visited_transition` and
`visited_up` become false, the ROM extrema and the torso window are cleared,
the sticky torso flag becomes false, `started_from_down` is set and
`descending_to_down` cleared — but `visited_down` is left unchanged (line 347:
"Don't reset visited_down"), and on a direct DOWN→UP commit
`reached_up_in_cycle` ends true, not false. -/
theorem C8_thm (cfg : Config) (a : ArmState) (angle g : ℚ) (al : Bool)
    (t since : ℚ) (p : Level)
    (hst : a.state = Level.down)
    (hp : proposeLevel cfg angle = p)
    (hP : p = Level.transition ∨ p = Level.up)
    (hpend : a.pending = some (p, since))
    (hdw : cfg.min_hold_time ≤ t - since) :
    (updateArm cfg a angle g al t).2 = false ∧
    (updateArm cfg a angle g al t).1.state = p ∧
    (updateArm cfg a angle g al t).1.pending = none ∧
    (updateArm cfg a angle g al t).1.visited_down = a.visited_down ∧
    (updateArm cfg a angle g al t).1.visited_transition = false ∧
    (updateArm cfg a angle g al t).1.visited_up = false ∧
    (updateArm cfg a angle g al t).1.min_angle_in_rep = none ∧
    (updateArm cfg a angle g al t).1.max_angle_in_rep = none ∧
    (updateArm cfg a angle g al t).1.torso_angles = [] ∧
    (updateArm cfg a angle g al t).1.torso_violation_during_transition = false ∧
    (updateArm cfg a angle g al t).1.started_from_down = true ∧
    (updateArm cfg a angle g al t).1.descending_to_down = false ∧
    (p = Level.transition → (updateArm cfg a angle g al t).1.reached_up_in_cycle = false) ∧
    (p = Level.up → (updateArm cfg a angle g al t).1.reached_up_in_cycle = true) ∧
    (updateArm cfg a angle g al t).1.hit_up = false ∧
    (updateArm cfg a angle g al t).1.hit_down = false ∧
    (updateArm cfg a angle g al t).1.rep_is_valid = true ∧
    (updateArm cfg a angle g al t).1.invalid_reasons = ({} : Reasons) ∧
    (updateArm cfg a angle g al t).1.last_rep_reasons = a.last_rep_reasons ∧
    (updateArm cfg a angle g al t).1.reps = a.reps ∧
    (updateArm cfg a angle g al t).1.correct_reps = a.correct_reps ∧
    (updateArm cfg a angle g al t).1.incorrect_reps = a.incorrect_reps := by
  have hpne : p ≠ a.state := by
    rw [hst]; rcases hP with h | h <;> subst h <;> exact fun hc => Level.noConfusion hc
  rw [updateArm_commit_eq cfg a angle g al t since p hpne hp hpend hdw]
  rcases hP with h | h <;> subst h <;> simp [commitArm, closeCycle, hst]

/-- The cycle-start prefix of the C8 scenario: commit DOWN, then commit
TRANSITION out of DOWN. -/
def cycleStartFrames : List Frame :=
  [ leftFrame (some 170) 0 0, leftFrame (some 170) 0 1,
    leftFrame (some 100) 0 2, leftFrame (some 100) 0 3 ]

/-- C8 counterexample: after committing DOWN and then committing TRANSITION
(a cycle start), `visited_down` is still true — the cycle start deliberately
does not reset it (line 347), contradicting the claim that all three visited
flags become false. -/
theorem C8_counterexample :
    (run defaultConfig (initState 0) cycleStartFrames).left.state = Level.transition ∧
    (run defaultConfig (initState 0) cycleStartFrames).left.started_from_down = true ∧
    (run defaultConfig (initState 0) cycleStartFrames).left.visited_down = true := by
  decide

/-- Arm state in committed DOWN with a matured pending TRANSITION. -/
def cexArmDown : ArmState :=
  { initArm 0 with
    state := Level.down
    pending := some (Level.transition, 0)
    visited_down := true
    torso_violation_during_transition := true
    torso_angles := [40, 40, 40] }

/-- C8 theorem instantiated at a DOWN→TRANSITION cycle start from
`cexArmDown`: the per-cycle fields reset but `visited_down` keeps its value. -/
theorem C8_witness :
    (updateArm defaultConfig cexArmDown 100 0 true 1).1.visited_down
        = cexArmDown.visited_down ∧
    (updateArm defaultConfig cexArmDown 100 0 true 1).1.visited_transition = false ∧
    (updateArm defaultConfig cexArmDown 100 0 true 1).1.torso_angles = [] ∧
    (updateArm defaultConfig cexArmDown 100 0 true 1).1.torso_violation_during_transition
        = false ∧
    (updateArm defaultConfig cexArmDown 100 0 true 1).1.started_from_down = true := by
  have h := C8_thm defaultConfig cexArmDown 100 0 true 1 0 Level.transition
    rfl (by decide) (Or.inl rfl) rfl (by decide)
  exact ⟨h.2.2.2.1, h.2.2.2.2.1, h.2.2.2.2.2.2.2.2.1, h.2.2.2.2.2.2.2.2.2.1,
    h.2.2.2.2.2.2.2.2.2.2.1⟩

lemma dwellStep_commit_ne (cfg : Config) (st : Level) (pend : Option (Level × ℚ))
    (p : Level) (t : ℚ) (h : (dwellStep cfg st pend p t).1 = true) : p ≠ st := by
  intro hps
  subst hps
  simp [dwellStep] at h

lemma commitArm_state (cfg : Config) (b : ArmState) (st p : Level) (t : ℚ) :
    (commitArm cfg b st p t).1.state = p := rfl

/-- A commit never clears the sticky torso flag unless it is a cycle start,
and a cycle start needs committed DOWN. -/
lemma updateArm_keeps_flag (cfg : Config) (a : ArmState) (angle g : ℚ) (al : Bool)
    (t : ℚ) (hstate : a.state ≠ Level.down)
    (hflag : a.torso_violation_during_transition = true) :
    (updateArm cfg a angle g al t).1.torso_violation_during_transition = true := by
  simp only [updateArm]
  split
  · simp only [commitArm]
    split <;> simp [closeCycle, hstate, hflag]
  · simp [hflag]

/-- From committed DOWN, an update either leaves the sticky torso flag alone
or commits out of DOWN. -/
lemma updateArm_down_flag (cfg : Config) (a : ArmState) (angle g : ℚ) (al : Bool)
    (t : ℚ) (hstate : a.state = Level.down) :
    ((updateArm cfg a angle g al t).1.torso_violation_during_transition
        = a.torso_violation_during_transition) ∨
      (updateArm cfg a angle g al t).1.state ≠ Level.down := by
  simp only [updateArm]
  split
  case isTrue hcm =>
    right
    rw [commitArm_state]
    rw [hstate] at hcm
    exact dwellStep_commit_ne cfg Level.down a.pending (proposeLevel cfg angle) t hcm
  case isFalse hcm => left; rfl

/-- On a frame whose raw angle is absent or whose arm is not visible, the
side step is only the bookkeeping prefix (lines 217-221 skip
`_update_arm_state`). -/
lemma stepSide_skip (cfg : Config) (il : Bool) (a : ArmState) (inp : SideInput)
    (t : ℚ) (h : inp.arm_angle = none ∨ inp.arm_visible = false) :
    stepSide cfg il a inp t = (preArm cfg il a inp, false) := by
  rcases inp with ⟨ang, alg, g, vis, conf⟩
  rcases h with h | h
  · obtain rfl : ang = none := h
    rfl
  · obtain rfl : vis = false := h
    cases ang <;> rfl

/-- On a frame with a measured angle and a visible arm, the side step is the
bookkeeping prefix followed by `_update_arm_state`. -/
lemma stepSide_some (cfg : Config) (il : Bool) (a : ArmState) (inp : SideInput)
    (t x : ℚ) (h1 : inp.arm_angle = some x) (h2 : inp.arm_visible = true) :
    stepSide cfg il a inp t =
      updateArm cfg (preArm cfg il a inp) x inp.torso_angle inp.alignment t := by
  rcases inp with ⟨ang, alg, g, vis, conf⟩
  obtain rfl : ang = some x := h1
  obtain rfl : vis = true := h2
  rfl

/-- The bookkeeping prefix only writes the visibility echo, the raw-angle
echo, and (when not committed DOWN) the three torso-tracking fields. -/
lemma preArm_spec (cfg : Config) (il : Bool) (a : ArmState) (inp : SideInput) :
    (preArm cfg il a inp).state = a.state ∧
    (preArm cfg il a inp).pending = a.pending ∧
    (preArm cfg il a inp).angle_history = a.angle_history ∧
    (preArm cfg il a inp).visited_down = a.visited_down ∧
    (preArm cfg il a inp).visited_transition = a.visited_transition ∧
    (preArm cfg il a inp).visited_up = a.visited_up ∧
    (preArm cfg il a inp).started_from_down = a.started_from_down ∧
    (preArm cfg il a inp).reached_up_in_cycle = a.reached_up_in_cycle ∧
    (preArm cfg il a inp).descending_to_down = a.descending_to_down ∧
    (preArm cfg il a inp).hit_up = a.hit_up ∧
    (preArm cfg il a inp).hit_down = a.hit_down ∧
    (preArm cfg il a inp).min_angle_in_rep = a.min_angle_in_rep ∧
    (preArm cfg il a inp).max_angle_in_rep = a.max_angle_in_rep ∧
    (preArm cfg il a inp).rep_is_valid = a.rep_is_valid ∧
    (preArm cfg il a inp).invalid_reasons = a.invalid_reasons ∧
    (preArm cfg il a inp).last_rep_reasons = a.last_rep_reasons ∧
    (preArm cfg il a inp).reps = a.reps ∧
    (preArm cfg il a inp).correct_reps = a.correct_reps ∧
    (preArm cfg il a inp).incorrect_reps = a.incorrect_reps ∧
    (preArm cfg il a inp).cycle_index = a.cycle_index := by
  by_cases hd : a.state = Level.down <;>
    simp [preArm, violationTimers, hd]

/-- In committed DOWN the prefix skips the torso timers. -/
lemma preArm_down (cfg : Config) (il : Bool) (a : ArmState) (inp : SideInput)
    (hd : a.state = Level.down) :
    (preArm cfg il a inp).torso_angles = a.torso_angles ∧
    (preArm cfg il a inp).torso_violation_during_transition
        = a.torso_violation_during_transition ∧
    (preArm cfg il a inp).max_torso_angle = a.max_torso_angle := by
  simp [preArm, hd]

/-- Outside committed DOWN the prefix pushes the torso angle into the window
and updates the sticky flag. -/
lemma preArm_not_down (cfg : Config) (il : Bool) (a : ArmState) (inp : SideInput)
    (hd : a.state ≠ Level.down) :
    (preArm cfg il a inp).torso_angles = pushTrim 3 a.torso_angles inp.torso_angle ∧
    (preArm cfg il a inp).torso_violation_during_transition =
      (if (pushTrim 3 a.torso_angles inp.torso_angle).length = 3 ∧
          cfg.torso_angle_threshold < listMean (pushTrim 3 a.torso_angles inp.torso_angle)
        then true else a.torso_violation_during_transition) := by
  simp [preArm, violationTimers, hd]

/-- The prefix never lowers the sticky torso flag. -/
lemma preArm_flag_true (cfg : Config) (il : Bool) (a : ArmState) (inp : SideInput)
    (hflag : a.torso_violation_during_transition = true) :
    (preArm cfg il a inp).torso_violation_during_transition = true := by
  by_cases hd : a.state = Level.down
  · exact (preArm_down cfg il a inp hd).2.1.trans hflag
  · rw [(preArm_not_down cfg il a inp hd).2, hflag]
    exact ite_self true

/-- C5 (amended): on a frame whose raw angle is absent or whose arm is not
visible, the update is total (no exception) and leaves the committed level,
pending transition, dwell timer, angle history, per-cycle flags, counters and
reason lists untouched — but the torso bookkeeping (3-sample window, max
angle, sticky flag) still advances whenever the arm is not committed DOWN;
only in committed DOWN is the torso state also untouched. -/
theorem C5_thm (cfg : Config) (il : Bool) (a : ArmState) (inp : SideInput) (t : ℚ)
    (h : inp.arm_angle = none ∨ inp.arm_visible = false) :
    (stepSide cfg il a inp t).1.state = a.state ∧
    (stepSide cfg il a inp t).1.pending = a.pending ∧
    (stepSide cfg il a inp t).1.angle_history = a.angle_history ∧
    (stepSide cfg il a inp t).1.visited_down = a.visited_down ∧
    (stepSide cfg il a inp t).1.visited_transition = a.visited_transition ∧
    (stepSide cfg il a inp t).1.visited_up = a.visited_up ∧
    (stepSide cfg il a inp t).1.started_from_down = a.started_from_down ∧
    (stepSide cfg il a inp t).1.reached_up_in_cycle = a.reached_up_in_cycle ∧
    (stepSide cfg il a inp t).1.descending_to_down = a.descending_to_down ∧
    (stepSide cfg il a inp t).1.hit_up = a.hit_up ∧
    (stepSide cfg il a inp t).1.hit_down = a.hit_down ∧
    (stepSide cfg il a inp t).1.min_angle_in_rep = a.min_angle_in_rep ∧
    (stepSide cfg il a inp t).1.max_angle_in_rep = a.max_angle_in_rep ∧
    (stepSide cfg il a inp t).1.rep_is_valid = a.rep_is_valid ∧
    (stepSide cfg il a inp t).1.invalid_reasons = a.invalid_reasons ∧
    (stepSide cfg il a inp t).1.last_rep_reasons = a.last_rep_reasons ∧
    (stepSide cfg il a inp t).1.reps = a.reps ∧
    (stepSide cfg il a inp t).1.correct_reps = a.correct_reps ∧
    (stepSide cfg il a inp t).1.incorrect_reps = a.incorrect_reps ∧
    (stepSide cfg il a inp t).1.cycle_index = a.cycle_index ∧
    (stepSide cfg il a inp t).2 = false ∧
    (a.state = Level.down →
      (stepSide cfg il a inp t).1.torso_angles = a.torso_angles ∧
      (stepSide cfg il a inp t).1.torso_violation_during_transition
          = a.torso_violation_during_transition ∧
      (stepSide cfg il a inp t).1.max_torso_angle = a.max_torso_angle) ∧
    (a.state ≠ Level.down →
      (stepSide cfg il a inp t).1.torso_angles
          = pushTrim 3 a.torso_angles inp.torso_angle) := by
  rw [stepSide_skip cfg il a inp t h]
  obtain ⟨h1, h2, h3, h4, h5, h6, h7, h8, h9, h10, h11, h12, h13, h14, h15,
    h16, h17, h18, h19, h20⟩ := preArm_spec cfg il a inp
  exact ⟨h1, h2, h3, h4, h5, h6, h7, h8, h9, h10, h11, h12, h13, h14, h15,
    h16, h17, h18, h19, h20, rfl,
    fun hd => preArm_down cfg il a inp hd,
    fun hd => (preArm_not_down cfg il a inp hd).1⟩

/-- Frame with the left raw angle absent and a nonzero left torso angle. -/
def absentAngleFrame : Frame :=
  { left_arm_angle := none, right_arm_angle := none,
    left_alignment := true, right_alignment := true,
    left_torso_angle := 5, right_torso_angle := 0,
    left_arm_visible := true, right_arm_visible := true,
    left_confidence := 1, right_confidence := 1, t := 0 }

/-- C5 counterexample: a frame with the left raw angle absent still pushes the
left torso angle into the 3-sample window (the tracker starts in UNKNOWN,
which is not DOWN, so the violation timers at lines 207-211 run regardless of
angle availability or visibility): the window changes from `[]` to `[5]`. -/
theorem C5_counterexample :
    (initState 0).left.torso_angles = [] ∧
    (update defaultConfig (initState 0) absentAngleFrame).left.torso_angles = [5] := by
  decide

/-- C5 amended theorem instantiated at a fresh left arm and an angle-absent
input: the committed level and the pending transition are untouched. -/
theorem C5_witness :
    (stepSide defaultConfig true (initArm 0)
        { arm_angle := none, alignment := true, torso_angle := 5,
          arm_visible := true, confidence := 1 } 0).1.state = (initArm 0).state ∧
    (stepSide defaultConfig true (initArm 0)
        { arm_angle := none, alignment := true, torso_angle := 5,
          arm_visible := true, confidence := 1 } 0).1.pending = (initArm 0).pending := by
  have h := C5_thm defaultConfig true (initArm 0)
    { arm_angle := none, alignment := true, torso_angle := 5,
      arm_visible := true, confidence := 1 } 0 (Or.inl rfl)
  exact ⟨h.1, h.2.1⟩

/-- C6: the sticky torso-violation discipline.  (i) while the arm is not
committed DOWN, a full 3-sample window whose average exceeds the threshold
sets the flag this frame; (ii) once the flag is set it stays set on every
frame except a commit that leaves DOWN (the cycle start, the only place the
source clears it); (iii) at a cycle close with the flag set, the stored
reason list contains the torso reason and the rep is invalid, and if the rep
is counted it increments the incorrect counter and not the correct one —
regardless of the torso angle at the closing frame. -/
theorem C6_thm (cfg : Config) (il : Bool) (a : ArmState) (inp : SideInput) (t : ℚ) :
    (a.state ≠ Level.down →
      (pushTrim 3 a.torso_angles inp.torso_angle).length = 3 →
      cfg.torso_angle_threshold < listMean (pushTrim 3 a.torso_angles inp.torso_angle) →
      (stepSide cfg il a inp t).1.torso_violation_during_transition = true) ∧
    (a.torso_violation_during_transition = true →
      (stepSide cfg il a inp t).1.torso_violation_during_transition = true ∨
        (a.state = Level.down ∧ (stepSide cfg il a inp t).1.state ≠ Level.down)) ∧
    (∀ angle since,
      (a.state = Level.up ∨ a.state = Level.transition) →
      a.torso_violation_during_transition = true →
      inp.arm_angle = some angle →
      inp.arm_visible = true →
      proposeLevel cfg angle = Level.down →
      a.pending = some (Level.down, since) →
      cfg.min_hold_time ≤ t - since →
      Reason.torsoExceeded ∈ (stepSide cfg il a inp t).1.last_rep_reasons ∧
      (stepSide cfg il a inp t).1.rep_is_valid = false ∧
      ((stepSide cfg il a inp t).2 = true →
        (stepSide cfg il a inp t).1.incorrect_reps = a.incorrect_reps + 1 ∧
        (stepSide cfg il a inp t).1.correct_reps = a.correct_reps)) := by
  refine ⟨fun hnd hlen havg => ?_,
    fun hflag => ?_,
    fun angle since hst hflag hang hvis hp hpend hdw => ?_⟩
  · -- (i): the timers set the flag, and nothing later clears it while not DOWN
    have hset : (preArm cfg il a inp).torso_violation_during_transition = true := by
      rw [(preArm_not_down cfg il a inp hnd).2]
      simp [hlen, havg]
    rcases hang : inp.arm_angle with - | x
    · rw [stepSide_skip cfg il a inp t (Or.inl hang)]
      exact hset
    · cases hvis : inp.arm_visible
      · rw [stepSide_skip cfg il a inp t (Or.inr hvis)]
        exact hset
      · rw [stepSide_some cfg il a inp t x hang hvis]
        exact updateArm_keeps_flag cfg (preArm cfg il a inp) x inp.torso_angle
          inp.alignment t (by rw [(preArm_spec cfg il a inp).1]; exact hnd) hset
  · -- (ii): stickiness until a commit out of DOWN
    have hset : (preArm cfg il a inp).torso_violation_during_transition = true :=
      preArm_flag_true cfg il a inp hflag
    rcases hang : inp.arm_angle with - | x
    · rw [stepSide_skip cfg il a inp t (Or.inl hang)]
      exact Or.inl hset
    · cases hvis : inp.arm_visible
      · rw [stepSide_skip cfg il a inp t (Or.inr hvis)]
        exact Or.inl hset
      · rw [stepSide_some cfg il a inp t x hang hvis]
        by_cases hd : a.state = Level.down
        · have h2 := updateArm_down_flag cfg (preArm cfg il a inp) x inp.torso_angle
            inp.alignment t ((preArm_spec cfg il a inp).1.trans hd)
          rcases h2 with h2 | h2
          · exact Or.inl (h2.trans hset)
          · exact Or.inr ⟨hd, h2⟩
        · exact Or.inl (updateArm_keeps_flag cfg (preArm cfg il a inp) x
            inp.torso_angle inp.alignment t
            (by rw [(preArm_spec cfg il a inp).1]; exact hd) hset)
  · -- (iii): closing with the flag already set
    have hset : (preArm cfg il a inp).torso_violation_during_transition = true :=
      preArm_flag_true cfg il a inp hflag
    have hps := preArm_spec cfg il a inp
    have hne : a.state ≠ Level.down := by
      rcases hst with h | h <;> rw [h] <;> exact fun hc => Level.noConfusion hc
    have hne2 : (preArm cfg il a inp).state ≠ Level.down := by
      rw [hps.1]; exact hne
    rw [stepSide_some cfg il a inp t angle hang hvis]
    rw [updateArm_commit_eq cfg (preArm cfg il a inp) angle inp.torso_angle
      inp.alignment t since Level.down (Ne.symm hne2) hp (hps.2.1.trans hpend) hdw]
    have hic : (preArm cfg il a inp).incorrect_reps = a.incorrect_reps :=
      hps.2.2.2.2.2.2.2.2.2.2.2.2.2.2.2.2.2.2.1
    have hcc : (preArm cfg il a inp).correct_reps = a.correct_reps :=
      hps.2.2.2.2.2.2.2.2.2.2.2.2.2.2.2.2.2.1
    refine ⟨?_, ?_, fun hcount => ?_⟩
    · simp [commitArm, closeCycle, hne2, hst, hps.1, hset,
        mem_toSortedList_torsoExceeded, torsoExceeded_ite]
    · simp [commitArm, closeCycle, hne2, hst, hps.1, hset]
    · simp only [commitArm, closeCycle] at hcount
      constructor <;>
        simp [commitArm, closeCycle, hne2, hst, hps.1, hset, hic, hcc] <;>
        simp_all

/-- Arm state mid-cycle with the sticky torso flag set and a matured pending
DOWN: a counted close about to be classified incorrect. -/
def cexArmTorso : ArmState :=
  { initArm 0 with
    state := Level.transition
    pending := some (Level.down, 0)
    started_from_down := true
    reached_up_in_cycle := true
    descending_to_down := true
    visited_down := true
    visited_transition := true
    visited_up := true
    torso_violation_during_transition := true }

/-- Side input closing the cycle with a torso-compliant frame. -/
def cexInpClose : SideInput :=
  { arm_angle := some 170
    alignment := true
    torso_angle := 0
    arm_visible := true
    confidence := 1 }

/-- C6 theorem instantiated at a close of `cexArmTorso` on a torso-compliant
frame: the rep is counted incorrect with the torso reason stored. -/
theorem C6_witness :
    Reason.torsoExceeded ∈
      (stepSide defaultConfig true cexArmTorso cexInpClose 1).1.last_rep_reasons ∧
    (stepSide defaultConfig true cexArmTorso cexInpClose 1).1.rep_is_valid = false ∧
    (stepSide defaultConfig true cexArmTorso cexInpClose 1).1.incorrect_reps
        = cexArmTorso.incorrect_reps + 1 ∧
    (stepSide defaultConfig true cexArmTorso cexInpClose 1).1.correct_reps
        = cexArmTorso.correct_reps := by
  have h := (C6_thm defaultConfig true cexArmTorso cexInpClose 1).2.2 170 0
    (Or.inr rfl) rfl rfl rfl (by decide) rfl (by decide)
  exact ⟨h.1, h.2.1, (h.2.2 (by decide)).1, (h.2.2 (by decide)).2⟩

/-- The bookkeeping prefix never touches the stored last-rep reason list. -/
lemma preArm_last (cfg : Config) (il : Bool) (a : ArmState) (inp : SideInput) :
    (preArm cfg il a inp).last_rep_reasons = a.last_rep_reasons := by
  by_cases hd : a.state = Level.down <;> simp [preArm, violationTimers, hd]

/-- An arm update never stores the did-not-reach-DOWN reason: rebuilding the
reasons happens only at a cycle close, whose commit into DOWN has just set
`visited_down` (lines 302-304 run before the close block at line 372). -/
lemma updateArm_no_reachDown (cfg : Config) (a : ArmState) (angle g : ℚ)
    (al : Bool) (t : ℚ)
    (h : a.last_rep_reasons.contains Reason.notReachDown = false) :
    (updateArm cfg a angle g al t).1.last_rep_reasons.contains Reason.notReachDown
      = false := by
  simp only [updateArm]
  split
  · simp only [commitArm]
    split
    case isTrue hcl =>
      obtain ⟨-, hnd⟩ := hcl
      simp [closeCycle, hnd, contains_toSortedList_notReachDown,
        mem_toSortedList_notReachDown, notReachDown_ite, h]
    case isFalse hcl =>
      split <;> simpa using h
  · simpa using h

lemma stepSide_no_reachDown (cfg : Config) (il : Bool) (a : ArmState)
    (inp : SideInput) (t : ℚ)
    (h : a.last_rep_reasons.contains Reason.notReachDown = false) :
    (stepSide cfg il a inp t).1.last_rep_reasons.contains Reason.notReachDown
      = false := by
  rcases hang : inp.arm_angle with - | x
  · rw [stepSide_skip cfg il a inp t (Or.inl hang), preArm_last]
    exact h
  · cases hvis : inp.arm_visible
    · rw [stepSide_skip cfg il a inp t (Or.inr hvis), preArm_last]
      exact h
    · rw [stepSide_some cfg il a inp t x hang hvis]
      exact updateArm_no_reachDown cfg (preArm cfg il a inp) x inp.torso_angle
        inp.alignment t ((preArm_last cfg il a inp).symm ▸ h)

lemma run_no_reachDown (cfg : Config) (fs : List Frame) :
    ∀ s : CounterState,
      s.left.last_rep_reasons.contains Reason.notReachDown = false →
      s.right.last_rep_reasons.contains Reason.notReachDown = false →
      (run cfg s fs).left.last_rep_reasons.contains Reason.notReachDown = false ∧
      (run cfg s fs).right.last_rep_reasons.contains Reason.notReachDown = false := by
  induction fs with
  | nil => exact fun s hl hr => ⟨hl, hr⟩
  | cons f fs ih =>
    intro s hl hr
    exact ih (update cfg s f)
      (stepSide_no_reachDown cfg true s.left f.leftInput f.t hl)
      (stepSide_no_reachDown cfg false s.right f.rightInput f.t hr)

/-- C10: in every session run from a fresh tracker, neither side's stored
last-rep reason list ever contains the "Did not reach DOWN position" reason:
the commit that closes a cycle is a commit into DOWN and itself sets
`visited_down` before the rejection reasons are rebuilt, so that error branch
is unreachable (in particular it never appears for a counted rep). -/
theorem C10_thm (cfg : Config) (t0 : ℚ) (fs : List Frame) :
    (run cfg (initState t0) fs).left.last_rep_reasons.contains Reason.notReachDown
        = false ∧
    (run cfg (initState t0) fs).right.last_rep_reasons.contains Reason.notReachDown
        = false :=
  run_no_reachDown cfg fs (initState t0) rfl rfl

lemma preArm_lst (cfg : Config) (il : Bool) (a : ArmState) (inp : SideInput) (x : ℚ) :
    preArm cfg il { a with last_state_time := x } inp
      = { preArm cfg il a inp with last_state_time := x } := by
  rcases a with ⟨st, lst, hist, prev, valid, pend, vd, vt, vu, sd, ru, dd, tv,
    ir, lr, mn, mx, hu, hdn, rp, cr, icr, ta, mta, av, ac, vm, aw, ra, ci⟩
  by_cases hd : st = Level.down <;> simp [preArm, violationTimers, hd]

lemma commitArm_lst (cfg : Config) (b : ArmState) (x : ℚ) (st p : Level) (t : ℚ) :
    commitArm cfg { b with last_state_time := x } st p t = commitArm cfg b st p t := by
  cases b
  by_cases h1 : st = Level.down ∧ (p = Level.transition ∨ p = Level.up) <;>
    by_cases h2 : (st = Level.up ∨ st = Level.transition) ∧ p = Level.down <;>
      simp [commitArm, closeCycle, h1, h2]

lemma updateArm_lst (cfg : Config) (b : ArmState) (x angle g : ℚ) (al : Bool)
    (t : ℚ) :
    eraseTime (updateArm cfg { b with last_state_time := x } angle g al t).1
        = eraseTime (updateArm cfg b angle g al t).1 ∧
    (updateArm cfg { b with last_state_time := x } angle g al t).2
        = (updateArm cfg b angle g al t).2 := by
  simp only [updateArm]
  rw [show ({ b with last_state_time := x } : ArmState).state = b.state from rfl]
  rw [show ({ b with last_state_time := x } : ArmState).pending = b.pending from rfl]
  split
  · have e := commitArm_lst cfg
      { b with
        angle_history := pushTrim cfg.history_length b.angle_history angle
        min_angle_in_rep :=
          if b.min_angle_in_rep ≠ none ∨ b.state ≠ Level.down then
            some (match b.min_angle_in_rep with | none => angle | some m => min m angle)
          else b.min_angle_in_rep
        max_angle_in_rep :=
          if b.min_angle_in_rep ≠ none ∨ b.state ≠ Level.down then
            some (match b.max_angle_in_rep with | none => angle | some m => max m angle)
          else b.max_angle_in_rep
        hit_up := if angle ≤ cfg.angle_threshold_up + cfg.hysteresis then true else b.hit_up
        hit_down := if cfg.angle_threshold_down - cfg.hysteresis ≤ angle then true
          else b.hit_down } x b.state (proposeLevel cfg angle) t
    exact ⟨congrArg (fun r => eraseTime r.1) e, congrArg Prod.snd e⟩
  · exact ⟨rfl, rfl⟩

lemma eraseTime_set (a : ArmState) (x : ℚ) :
    eraseTime { a with last_state_time := x } = eraseTime a := rfl

lemma eq_setTime_of_eraseTime (a b : ArmState) (h : eraseTime a = eraseTime b) :
    b = { a with last_state_time := b.last_state_time } := by
  cases a; cases b
  simp only [eraseTime, ArmState.mk.injEq] at h ⊢
  simp_all

lemma stepSide_lst (cfg : Config) (il : Bool) (a : ArmState) (inp : SideInput)
    (t x : ℚ) :
    eraseTime (stepSide cfg il { a with last_state_time := x } inp t).1
        = eraseTime (stepSide cfg il a inp t).1 ∧
    (stepSide cfg il { a with last_state_time := x } inp t).2
        = (stepSide cfg il a inp t).2 := by
  rcases hang : inp.arm_angle with - | y
  · rw [stepSide_skip cfg il _ inp t (Or.inl hang),
      stepSide_skip cfg il a inp t (Or.inl hang), preArm_lst]
    exact ⟨eraseTime_set _ _, rfl⟩
  · cases hvis : inp.arm_visible
    · rw [stepSide_skip cfg il _ inp t (Or.inr hvis),
        stepSide_skip cfg il a inp t (Or.inr hvis), preArm_lst]
      exact ⟨eraseTime_set _ _, rfl⟩
    · rw [stepSide_some cfg il _ inp t y hang hvis,
        stepSide_some cfg il a inp t y hang hvis, preArm_lst]
      exact updateArm_lst cfg (preArm cfg il a inp) x y inp.torso_angle
        inp.alignment t

lemma update_eraseTimes (cfg : Config) (s1 s2 : CounterState) (f : Frame)
    (h : eraseTimes s1 = eraseTimes s2) :
    eraseTimes (update cfg s1 f) = eraseTimes (update cfg s2 f) := by
  have hl : s2.left = { s1.left with last_state_time := s2.left.last_state_time } :=
    eq_setTime_of_eraseTime s1.left s2.left (congrArg CounterState.left h)
  have hr : s2.right = { s1.right with last_state_time := s2.right.last_state_time } :=
    eq_setTime_of_eraseTime s1.right s2.right (congrArg CounterState.right h)
  have htot : s1.total_reps = s2.total_reps := by
    have h2 := congrArg CounterState.total_reps h
    simpa [eraseTimes] using h2
  have hdbg : s1.debug_mode = s2.debug_mode := by
    have h2 := congrArg CounterState.debug_mode h
    simpa [eraseTimes] using h2
  have el := stepSide_lst cfg true s1.left f.leftInput f.t s2.left.last_state_time
  have er := stepSide_lst cfg false s1.right f.rightInput f.t s2.right.last_state_time
  rw [← hl] at el
  rw [← hr] at er
  simp only [update, eraseTimes, CounterState.mk.injEq]
  refine ⟨el.1.symm, er.1.symm, ?_, hdbg⟩
  rw [htot, el.2, er.2]

lemma run_eraseTimes (cfg : Config) (fs : List Frame) :
    ∀ s1 s2 : CounterState, eraseTimes s1 = eraseTimes s2 →
      eraseTimes (run cfg s1 fs) = eraseTimes (run cfg s2 fs) := by
  induction fs with
  | nil => exact fun s1 s2 h => h
  | cons f fs ih =>
    intro s1 s2 h
    exact ih (update cfg s1 f) (update cfg s2 f) (update_eraseTimes cfg s1 s2 f h)

lemma getStatus_eraseTimes (s : CounterState) :
    getStatus (eraseTimes s) = getStatus s := rfl

/-- C1: the status snapshot after a run — committed levels, all counters, the
stored rejection-reason lists and the rest of `get_status` — is a function of
the per-frame inputs alone.  The only wall-clock value not supplied by the
frames is the construction-time read stored in `*_last_state_time`, and it is
write-only: two trackers constructed at different wall-clock instants produce
identical snapshots on the same frame sequence. -/
theorem C1_thm (cfg : Config) (t1 t2 : ℚ) (fs : List Frame) :
    getStatus (run cfg (initState t1) fs) = getStatus (run cfg (initState t2) fs) := by
  have h0 : eraseTimes (initState t1) = eraseTimes (initState t2) := rfl
  have h := run_eraseTimes cfg fs (initState t1) (initState t2) h0
  calc getStatus (run cfg (initState t1) fs)
      = getStatus (eraseTimes (run cfg (initState t1) fs)) :=
        (getStatus_eraseTimes _).symm
    _ = getStatus (eraseTimes (run cfg (initState t2) fs)) := by rw [h]
    _ = getStatus (run cfg (initState t2) fs) := getStatus_eraseTimes _

lemma dwell_none (cfg : Config) (st : Level) (p : Level) (t : ℚ) (hne : p ≠ st) :
    dwellStep cfg st none p t = (false, some (p, t)) := by
  simp [dwellStep, hne]

lemma updateArm_nocommit_fields (cfg : Config) (b : ArmState) (angle g : ℚ)
    (al : Bool) (t : ℚ)
    (hnc : (dwellStep cfg b.state b.pending (proposeLevel cfg angle) t).1 = false) :
    (updateArm cfg b angle g al t).1.state = b.state ∧
    (updateArm cfg b angle g al t).1.pending
        = (dwellStep cfg b.state b.pending (proposeLevel cfg angle) t).2 ∧
    (updateArm cfg b angle g al t).1.visited_down = b.visited_down ∧
    (updateArm cfg b angle g al t).1.visited_transition = b.visited_transition ∧
    (updateArm cfg b angle g al t).1.visited_up = b.visited_up ∧
    (updateArm cfg b angle g al t).1.started_from_down = b.started_from_down ∧
    (updateArm cfg b angle g al t).1.reached_up_in_cycle = b.reached_up_in_cycle ∧
    (updateArm cfg b angle g al t).1.descending_to_down = b.descending_to_down ∧
    (updateArm cfg b angle g al t).1.rep_is_valid = b.rep_is_valid ∧
    (updateArm cfg b angle g al t).1.invalid_reasons = b.invalid_reasons ∧
    (updateArm cfg b angle g al t).1.last_rep_reasons = b.last_rep_reasons ∧
    (updateArm cfg b angle g al t).1.reps = b.reps ∧
    (updateArm cfg b angle g al t).1.correct_reps = b.correct_reps ∧
    (updateArm cfg b angle g al t).1.incorrect_reps = b.incorrect_reps ∧
    (updateArm cfg b angle g al t).1.torso_angles = b.torso_angles ∧
    (updateArm cfg b angle g al t).1.torso_violation_during_transition
        = b.torso_violation_during_transition ∧
    (updateArm cfg b angle g al t).2 = false := by
  simp only [updateArm, hnc, Bool.false_eq_true, if_false]
  repeat' apply And.intro
  all_goals first | rfl | trivial

/-- Non-commit side step: a measured visible frame whose raw level differs
from the committed level while no pending transition exists only starts a
pending transition. -/
lemma step_nc (cfg : Config) (il : Bool) (a : ArmState) (inp : SideInput)
    (t x : ℚ) (hang : inp.arm_angle = some x) (hvis : inp.arm_visible = true)
    (hpend : a.pending = none) (hne : proposeLevel cfg x ≠ a.state) :
    (stepSide cfg il a inp t).1.state = a.state ∧
    (stepSide cfg il a inp t).1.pending = some (proposeLevel cfg x, t) ∧
    (stepSide cfg il a inp t).1.visited_transition = a.visited_transition ∧
    (stepSide cfg il a inp t).1.visited_up = a.visited_up ∧
    (stepSide cfg il a inp t).1.started_from_down = a.started_from_down ∧
    (stepSide cfg il a inp t).1.reached_up_in_cycle = a.reached_up_in_cycle ∧
    (stepSide cfg il a inp t).1.descending_to_down = a.descending_to_down ∧
    (stepSide cfg il a inp t).1.rep_is_valid = a.rep_is_valid ∧
    (stepSide cfg il a inp t).1.last_rep_reasons = a.last_rep_reasons ∧
    (stepSide cfg il a inp t).1.reps = a.reps ∧
    (stepSide cfg il a inp t).1.correct_reps = a.correct_reps ∧
    (stepSide cfg il a inp t).1.incorrect_reps = a.incorrect_reps ∧
    (stepSide cfg il a inp t).2 = false ∧
    (a.state = Level.down →
      (stepSide cfg il a inp t).1.torso_angles = a.torso_angles ∧
      (stepSide cfg il a inp t).1.torso_violation_during_transition
          = a.torso_violation_during_transition) ∧
    (a.state ≠ Level.down →
      (stepSide cfg il a inp t).1.torso_angles
          = pushTrim 3 a.torso_angles inp.torso_angle ∧
      (stepSide cfg il a inp t).1.torso_violation_during_transition =
        (if (pushTrim 3 a.torso_angles inp.torso_angle).length = 3 ∧
            cfg.torso_angle_threshold
              < listMean (pushTrim 3 a.torso_angles inp.torso_angle)
          then true else a.torso_violation_during_transition)) := by
  rw [stepSide_some cfg il a inp t x hang hvis]
  have hps := preArm_spec cfg il a inp
  have hnc : (dwellStep cfg (preArm cfg il a inp).state (preArm cfg il a inp).pending
      (proposeLevel cfg x) t).1 = false := by
    rw [hps.1, hps.2.1, hpend, dwell_none cfg a.state (proposeLevel cfg x) t hne]
  have hf := updateArm_nocommit_fields cfg (preArm cfg il a inp) x inp.torso_angle
    inp.alignment t hnc
  have hpd : (dwellStep cfg (preArm cfg il a inp).state (preArm cfg il a inp).pending
      (proposeLevel cfg x) t).2 = some (proposeLevel cfg x, t) := by
    rw [hps.1, hps.2.1, hpend, dwell_none cfg a.state (proposeLevel cfg x) t hne]
  refine ⟨hf.1.trans hps.1, hf.2.1.trans hpd, ?_, ?_, ?_, ?_, ?_, ?_, ?_, ?_, ?_,
    ?_, hf.2.2.2.2.2.2.2.2.2.2.2.2.2.2.2.2, fun hd => ?_, fun hd => ?_⟩
  · exact hf.2.2.2.1.trans hps.2.2.2.2.1
  · exact hf.2.2.2.2.1.trans hps.2.2.2.2.2.1
  · exact hf.2.2.2.2.2.1.trans hps.2.2.2.2.2.2.1
  · exact hf.2.2.2.2.2.2.1.trans hps.2.2.2.2.2.2.2.1
  · exact hf.2.2.2.2.2.2.2.1.trans hps.2.2.2.2.2.2.2.2.1
  · exact hf.2.2.2.2.2.2.2.2.1.trans hps.2.2.2.2.2.2.2.2.2.2.2.2.2.1
  · exact hf.2.2.2.2.2.2.2.2.2.2.1.trans hps.2.2.2.2.2.2.2.2.2.2.2.2.2.2.2.1
  · exact hf.2.2.2.2.2.2.2.2.2.2.2.1.trans hps.2.2.2.2.2.2.2.2.2.2.2.2.2.2.2.2.1
  · exact hf.2.2.2.2.2.2.2.2.2.2.2.2.1.trans hps.2.2.2.2.2.2.2.2.2.2.2.2.2.2.2.2.2.1
  · exact hf.2.2.2.2.2.2.2.2.2.2.2.2.2.1.trans hps.2.2.2.2.2.2.2.2.2.2.2.2.2.2.2.2.2.2.1
  · exact ⟨hf.2.2.2.2.2.2.2.2.2.2.2.2.2.2.1.trans (preArm_down cfg il a inp hd).1,
      hf.2.2.2.2.2.2.2.2.2.2.2.2.2.2.2.1.trans (preArm_down cfg il a inp hd).2.1⟩
  · exact ⟨hf.2.2.2.2.2.2.2.2.2.2.2.2.2.2.1.trans (preArm_not_down cfg il a inp hd).1,
      hf.2.2.2.2.2.2.2.2.2.2.2.2.2.2.2.1.trans (preArm_not_down cfg il a inp hd).2⟩

lemma mean3_le (c x y z : ℚ) (hx : x ≤ c) (hy : y ≤ c) (hz : z ≤ c) :
    listMean [x, y, z] ≤ c := by
  have h3 : ((([x, y, z] : List ℚ).length : ℚ)) = 3 := by norm_num
  rw [listMean, h3, div_le_iff₀ (by norm_num : (0 : ℚ) < 3)]
  simp only [List.sum_cons, List.sum_nil, add_zero]
  linarith

/-- Committing TRANSITION (or UP) out of committed DOWN: the cycle start. -/
lemma step_start_T (cfg : Config) (il : Bool) (a : ArmState) (inp : SideInput)
    (t x since : ℚ)
    (hang : inp.arm_angle = some x) (hvis : inp.arm_visible = true)
    (hst : a.state = Level.down)
    (hp : proposeLevel cfg x = Level.transition)
    (hpend : a.pending = some (Level.transition, since))
    (hdw : cfg.min_hold_time ≤ t - since) :
    (stepSide cfg il a inp t).1.state = Level.transition ∧
    (stepSide cfg il a inp t).1.pending = none ∧
    (stepSide cfg il a inp t).1.started_from_down = true ∧
    (stepSide cfg il a inp t).1.reached_up_in_cycle = false ∧
    (stepSide cfg il a inp t).1.descending_to_down = false ∧
    (stepSide cfg il a inp t).1.visited_transition = false ∧
    (stepSide cfg il a inp t).1.visited_up = false ∧
    (stepSide cfg il a inp t).1.rep_is_valid = true ∧
    (stepSide cfg il a inp t).1.torso_violation_during_transition = false ∧
    (stepSide cfg il a inp t).1.torso_angles = [] ∧
    (stepSide cfg il a inp t).1.last_rep_reasons = a.last_rep_reasons ∧
    (stepSide cfg il a inp t).1.reps = a.reps ∧
    (stepSide cfg il a inp t).1.correct_reps = a.correct_reps ∧
    (stepSide cfg il a inp t).1.incorrect_reps = a.incorrect_reps ∧
    (stepSide cfg il a inp t).2 = false := by
  rw [stepSide_some cfg il a inp t x hang hvis]
  obtain ⟨h1, h2, h3, h4, h5, h6, h7, h8, h9, h10, h11, h12, h13, h14, h15, h16,
    h17, h18, h19, h20⟩ := preArm_spec cfg il a inp
  have hpne : Level.transition ≠ (preArm cfg il a inp).state := by
    rw [h1, hst]
    decide
  rw [updateArm_commit_eq cfg (preArm cfg il a inp) x inp.torso_angle inp.alignment
    t since Level.transition hpne hp (h2.trans hpend) hdw]
  simp [commitArm, closeCycle, h1, hst, h16, h17, h18, h19]

/-- Committing UP out of committed TRANSITION with `started_from_down` set. -/
lemma step_up (cfg : Config) (il : Bool) (a : ArmState) (inp : SideInput)
    (t x since : ℚ)
    (hang : inp.arm_angle = some x) (hvis : inp.arm_visible = true)
    (hst : a.state = Level.transition)
    (hp : proposeLevel cfg x = Level.up)
    (hpend : a.pending = some (Level.up, since))
    (hdw : cfg.min_hold_time ≤ t - since)
    (hsd : a.started_from_down = true) :
    (stepSide cfg il a inp t).1.state = Level.up ∧
    (stepSide cfg il a inp t).1.pending = none ∧
    (stepSide cfg il a inp t).1.started_from_down = true ∧
    (stepSide cfg il a inp t).1.reached_up_in_cycle = true ∧
    (stepSide cfg il a inp t).1.descending_to_down = a.descending_to_down ∧
    (stepSide cfg il a inp t).1.visited_transition = a.visited_transition ∧
    (stepSide cfg il a inp t).1.visited_up = true ∧
    (stepSide cfg il a inp t).1.rep_is_valid = a.rep_is_valid ∧
    (stepSide cfg il a inp t).1.last_rep_reasons = a.last_rep_reasons ∧
    (stepSide cfg il a inp t).1.reps = a.reps ∧
    (stepSide cfg il a inp t).1.correct_reps = a.correct_reps ∧
    (stepSide cfg il a inp t).1.incorrect_reps = a.incorrect_reps ∧
    (stepSide cfg il a inp t).1.torso_angles
        = pushTrim 3 a.torso_angles inp.torso_angle ∧
    (stepSide cfg il a inp t).1.torso_violation_during_transition =
      (if (pushTrim 3 a.torso_angles inp.torso_angle).length = 3 ∧
          cfg.torso_angle_threshold
            < listMean (pushTrim 3 a.torso_angles inp.torso_angle)
        then true else a.torso_violation_during_transition) ∧
    (stepSide cfg il a inp t).2 = false := by
  rw [stepSide_some cfg il a inp t x hang hvis]
  obtain ⟨h1, h2, h3, h4, h5, h6, h7, h8, h9, h10, h11, h12, h13, h14, h15, h16,
    h17, h18, h19, h20⟩ := preArm_spec cfg il a inp
  have hnd : a.state ≠ Level.down := by
    rw [hst]
    decide
  have htor := preArm_not_down cfg il a inp hnd
  have hpne : Level.up ≠ (preArm cfg il a inp).state := by
    rw [h1, hst]
    decide
  rw [updateArm_commit_eq cfg (preArm cfg il a inp) x inp.torso_angle inp.alignment
    t since Level.up hpne hp (h2.trans hpend) hdw]
  simp [commitArm, closeCycle, h1, hst, h5, h7, h8, h9, h14, h16, h17, h18, h19,
    hsd, htor.1, htor.2]

/-- Committing TRANSITION out of committed UP with `reached_up_in_cycle` set:
the descent is recorded. -/
lemma step_descend (cfg : Config) (il : Bool) (a : ArmState) (inp : SideInput)
    (t x since : ℚ)
    (hang : inp.arm_angle = some x) (hvis : inp.arm_visible = true)
    (hst : a.state = Level.up)
    (hp : proposeLevel cfg x = Level.transition)
    (hpend : a.pending = some (Level.transition, since))
    (hdw : cfg.min_hold_time ≤ t - since)
    (hru : a.reached_up_in_cycle = true) :
    (stepSide cfg il a inp t).1.state = Level.transition ∧
    (stepSide cfg il a inp t).1.pending = none ∧
    (stepSide cfg il a inp t).1.started_from_down = a.started_from_down ∧
    (stepSide cfg il a inp t).1.reached_up_in_cycle = true ∧
    (stepSide cfg il a inp t).1.descending_to_down = true ∧
    (stepSide cfg il a inp t).1.visited_transition = true ∧
    (stepSide cfg il a inp t).1.visited_up = a.visited_up ∧
    (stepSide cfg il a inp t).1.rep_is_valid = a.rep_is_valid ∧
    (stepSide cfg il a inp t).1.last_rep_reasons = a.last_rep_reasons ∧
    (stepSide cfg il a inp t).1.reps = a.reps ∧
    (stepSide cfg il a inp t).1.correct_reps = a.correct_reps ∧
    (stepSide cfg il a inp t).1.incorrect_reps = a.incorrect_reps ∧
    (stepSide cfg il a inp t).1.torso_angles
        = pushTrim 3 a.torso_angles inp.torso_angle ∧
    (stepSide cfg il a inp t).1.torso_violation_during_transition =
      (if (pushTrim 3 a.torso_angles inp.torso_angle).length = 3 ∧
          cfg.torso_angle_threshold
            < listMean (pushTrim 3 a.torso_angles inp.torso_angle)
        then true else a.torso_violation_during_transition) ∧
    (stepSide cfg il a inp t).2 = false := by
  rw [stepSide_some cfg il a inp t x hang hvis]
  obtain ⟨h1, h2, h3, h4, h5, h6, h7, h8, h9, h10, h11, h12, h13, h14, h15, h16,
    h17, h18, h19, h20⟩ := preArm_spec cfg il a inp
  have hnd : a.state ≠ Level.down := by
    rw [hst]
    decide
  have htor := preArm_not_down cfg il a inp hnd
  have hpne : Level.transition ≠ (preArm cfg il a inp).state := by
    rw [h1, hst]
    decide
  rw [updateArm_commit_eq cfg (preArm cfg il a inp) x inp.torso_angle inp.alignment
    t since Level.transition hpne hp (h2.trans hpend) hdw]
  simp [commitArm, closeCycle, h1, hst, h6, h7, h8, h14, h16, h17, h18, h19,
    hru, htor.1, htor.2]

/-- Committing DOWN out of committed TRANSITION with a clean full cycle behind
it: the close counts one correct rep and stores an empty reason list. -/
lemma step_close (cfg : Config) (il : Bool) (a : ArmState) (inp : SideInput)
    (t x since : ℚ)
    (hang : inp.arm_angle = some x) (hvis : inp.arm_visible = true)
    (hst : a.state = Level.transition)
    (hp : proposeLevel cfg x = Level.down)
    (hpend : a.pending = some (Level.down, since))
    (hdw : cfg.min_hold_time ≤ t - since)
    (hvalid : a.rep_is_valid = true)
    (hvT : a.visited_transition = true)
    (hvU : a.visited_up = true)
    (hsd : a.started_from_down = true)
    (hru : a.reached_up_in_cycle = true)
    (hdd : a.descending_to_down = true)
    (hflag : a.torso_violation_during_transition = false)
    (hmean : ¬ (cfg.torso_angle_threshold
        < listMean (pushTrim 3 a.torso_angles inp.torso_angle)))
    (hrom : cfg.min_rom_degrees ≤ 0) :
    (stepSide cfg il a inp t).1.state = Level.down ∧
    (stepSide cfg il a inp t).1.pending = none ∧
    (stepSide cfg il a inp t).1.reps = a.reps + 1 ∧
    (stepSide cfg il a inp t).1.correct_reps = a.correct_reps + 1 ∧
    (stepSide cfg il a inp t).1.incorrect_reps = a.incorrect_reps ∧
    (stepSide cfg il a inp t).1.last_rep_reasons = [] ∧
    (stepSide cfg il a inp t).2 = true := by
  rw [stepSide_some cfg il a inp t x hang hvis]
  obtain ⟨h1, h2, h3, h4, h5, h6, h7, h8, h9, h10, h11, h12, h13, h14, h15, h16,
    h17, h18, h19, h20⟩ := preArm_spec cfg il a inp
  have hnd : a.state ≠ Level.down := by
    rw [hst]
    decide
  have hfl : (preArm cfg il a inp).torso_violation_during_transition = false := by
    rw [(preArm_not_down cfg il a inp hnd).2, hflag]
    exact if_neg (fun hc => hmean hc.2)
  have hrom2 : ¬ (0 < cfg.min_rom_degrees) := not_lt.mpr hrom
  have hpne : Level.down ≠ (preArm cfg il a inp).state := by
    rw [h1, hst]
    decide
  rw [updateArm_commit_eq cfg (preArm cfg il a inp) x inp.torso_angle inp.alignment
    t since Level.down hpne hp (h2.trans hpend) hdw]
  simp [commitArm, closeCycle, h1, hst, h5, h6, h7, h8, h9, h14, h16, h17, h18,
    h19, hvalid, hvT, hvU, hsd, hru, hdd, hfl, hrom2]

lemma update_left (cfg : Config) (s : CounterState) (f : Frame) :
    (update cfg s f).left = (stepSide cfg true s.left f.leftInput f.t).1 := rfl

lemma update_right (cfg : Config) (s : CounterState) (f : Frame) :
    (update cfg s f).right = (stepSide cfg false s.right f.rightInput f.t).1 := rfl

lemma update_total (cfg : Config) (s : CounterState) (f : Frame) :
    (update cfg s f).total_reps = s.total_reps
      + (if (stepSide cfg true s.left f.leftInput f.t).2 then 1 else 0)
      + (if (stepSide cfg false s.right f.rightInput f.t).2 then 1 else 0) := rfl

/-- `leftFrame` carries no right-arm angle, so the right side of the update
never runs `_update_arm_state` and never counts. -/
lemma stepSide_rightNone (cfg : Config) (a : ArmState) (x : Option ℚ)
    (g u t : ℚ) :
    stepSide cfg false a ((leftFrame x g u).rightInput) t
      = (preArm cfg false a ((leftFrame x g u).rightInput), false) := rfl

/-- The eight-frame left-arm scenario of the P3 claim: two frames at each of
the committed levels TRANSITION, UP, TRANSITION, DOWN, starting from DOWN. -/
def c3Frames (a1 a2 a3 a4 a5 a6 a7 a8 g1 g2 g3 g4 g5 g6 g7 g8
    t1 t2 t3 t4 t5 t6 t7 t8 : ℚ) : List Frame :=
  [leftFrame (some a1) g1 t1, leftFrame (some a2) g2 t2,
   leftFrame (some a3) g3 t3, leftFrame (some a4) g4 t4,
   leftFrame (some a5) g5 t5, leftFrame (some a6) g6 t6,
   leftFrame (some a7) g7 t7, leftFrame (some a8) g8 t8]

lemma leftFrame_t (x : Option ℚ) (g t : ℚ) : (leftFrame x g t).t = t := rfl

/-- C3: starting from committed DOWN with no pending transition, a frame
sequence whose committed levels go DOWN → TRANSITION → UP → TRANSITION → DOWN
(two frames per new level, a dwell of at least `min_hold_time` between the
two frames of each pair), with every torso sample at most the torso
threshold and no minimum ROM configured, produces exactly one counted
repetition for that arm, classified correct: the arm's rep counter, its
correct counter and `total_reps` each grow by exactly one, its incorrect
counter is unchanged, and the stored reason list for that side is empty. -/
theorem C3_thm (cfg : Config) (s : CounterState)
    (a1 a2 a3 a4 a5 a6 a7 a8 g1 g2 g3 g4 g5 g6 g7 g8
     t1 t2 t3 t4 t5 t6 t7 t8 : ℚ)
    (hst : s.left.state = Level.down) (hpd : s.left.pending = none)
    (hp1 : proposeLevel cfg a1 = Level.transition)
    (hp2 : proposeLevel cfg a2 = Level.transition)
    (hp3 : proposeLevel cfg a3 = Level.up)
    (hp4 : proposeLevel cfg a4 = Level.up)
    (hp5 : proposeLevel cfg a5 = Level.transition)
    (hp6 : proposeLevel cfg a6 = Level.transition)
    (hp7 : proposeLevel cfg a7 = Level.down)
    (hp8 : proposeLevel cfg a8 = Level.down)
    (hd2 : cfg.min_hold_time ≤ t2 - t1)
    (hd4 : cfg.min_hold_time ≤ t4 - t3)
    (hd6 : cfg.min_hold_time ≤ t6 - t5)
    (hd8 : cfg.min_hold_time ≤ t8 - t7)
    (hg3 : g3 ≤ cfg.torso_angle_threshold)
    (hg4 : g4 ≤ cfg.torso_angle_threshold)
    (hg5 : g5 ≤ cfg.torso_angle_threshold)
    (hg6 : g6 ≤ cfg.torso_angle_threshold)
    (hg7 : g7 ≤ cfg.torso_angle_threshold)
    (hg8 : g8 ≤ cfg.torso_angle_threshold)
    (hrom : cfg.min_rom_degrees ≤ 0) :
    (run cfg s (c3Frames a1 a2 a3 a4 a5 a6 a7 a8 g1 g2 g3 g4 g5 g6 g7 g8
        t1 t2 t3 t4 t5 t6 t7 t8)).left.reps = s.left.reps + 1 ∧
    (run cfg s (c3Frames a1 a2 a3 a4 a5 a6 a7 a8 g1 g2 g3 g4 g5 g6 g7 g8
        t1 t2 t3 t4 t5 t6 t7 t8)).left.correct_reps = s.left.correct_reps + 1 ∧
    (run cfg s (c3Frames a1 a2 a3 a4 a5 a6 a7 a8 g1 g2 g3 g4 g5 g6 g7 g8
        t1 t2 t3 t4 t5 t6 t7 t8)).left.incorrect_reps = s.left.incorrect_reps ∧
    (run cfg s (c3Frames a1 a2 a3 a4 a5 a6 a7 a8 g1 g2 g3 g4 g5 g6 g7 g8
        t1 t2 t3 t4 t5 t6 t7 t8)).left.last_rep_reasons = [] ∧
    (run cfg s (c3Frames a1 a2 a3 a4 a5 a6 a7 a8 g1 g2 g3 g4 g5 g6 g7 g8
        t1 t2 t3 t4 t5 t6 t7 t8)).left.state = Level.down ∧
    (run cfg s (c3Frames a1 a2 a3 a4 a5 a6 a7 a8 g1 g2 g3 g4 g5 g6 g7 g8
        t1 t2 t3 t4 t5 t6 t7 t8)).total_reps = s.total_reps + 1 := by
  simp only [run, c3Frames, List.foldl_cons, List.foldl_nil, update_left,
    update_right, update_total, leftFrame_t, stepSide_rightNone, add_zero]
  set A1 := (stepSide cfg true s.left ((leftFrame (some a1) g1 t1).leftInput) t1).1 with hA1
  set A2 := (stepSide cfg true A1 ((leftFrame (some a2) g2 t2).leftInput) t2).1 with hA2
  set A3 := (stepSide cfg true A2 ((leftFrame (some a3) g3 t3).leftInput) t3).1 with hA3
  set A4 := (stepSide cfg true A3 ((leftFrame (some a4) g4 t4).leftInput) t4).1 with hA4
  set A5 := (stepSide cfg true A4 ((leftFrame (some a5) g5 t5).leftInput) t5).1 with hA5
  set A6 := (stepSide cfg true A5 ((leftFrame (some a6) g6 t6).leftInput) t6).1 with hA6
  set A7 := (stepSide cfg true A6 ((leftFrame (some a7) g7 t7).leftInput) t7).1 with hA7
  set A8 := (stepSide cfg true A7 ((leftFrame (some a8) g8 t8).leftInput) t8).1 with hA8
  -- frame 1: raw TRANSITION seen from DOWN, a pending transition starts
  have hne1 : proposeLevel cfg a1 ≠ s.left.state := by
    rw [hp1, hst]
    decide
  have h1 := step_nc cfg true s.left ((leftFrame (some a1) g1 t1).leftInput) t1 a1
    rfl rfl hpd hne1
  rw [← hA1] at h1
  obtain ⟨e1st, e1pd, -, -, -, -, -, -, -, e1rp, e1cr, e1ic, e1ct, -, -⟩ := h1
  rw [hst] at e1st
  rw [hp1] at e1pd
  -- frame 2: the pending TRANSITION matures and commits: cycle start
  have h2 := step_start_T cfg true A1 ((leftFrame (some a2) g2 t2).leftInput) t2 a2 t1
    rfl rfl e1st hp2 e1pd hd2
  rw [← hA2] at h2
  obtain ⟨e2st, e2pd, e2sd, e2ru, e2dd, e2vT, e2vU, e2va, e2fl, e2w, e2ls, e2rp,
    e2cr, e2ic, e2ct⟩ := h2
  -- frame 3: raw UP seen from TRANSITION, a pending transition starts
  have hne3 : proposeLevel cfg a3 ≠ A2.state := by
    rw [hp3, e2st]
    decide
  have h3 := step_nc cfg true A2 ((leftFrame (some a3) g3 t3).leftInput) t3 a3
    rfl rfl e2pd hne3
  rw [← hA3] at h3
  obtain ⟨e3st, e3pd, e3vT, e3vU, e3sd, e3ru, e3dd, e3va, e3ls, e3rp, e3cr, e3ic,
    e3ct, -, e3nd⟩ := h3
  rw [e2st] at e3st
  rw [hp3] at e3pd
  have hnd2 : A2.state ≠ Level.down := by
    rw [e2st]
    decide
  obtain ⟨e3w, e3fl⟩ := e3nd hnd2
  have w3 : A3.torso_angles = [g3] := by
    rw [e3w, e2w]
    rfl
  have f3 : A3.torso_violation_during_transition = false := by
    rw [e3fl, e2w, e2fl]
    exact if_neg (by simp [pushTrim])
  -- frame 4: the pending UP matures and commits: the arm reaches UP
  have sd3 : A3.started_from_down = true := e3sd.trans e2sd
  have h4 := step_up cfg true A3 ((leftFrame (some a4) g4 t4).leftInput) t4 a4 t3
    rfl rfl e3st hp4 e3pd hd4 sd3
  rw [← hA4] at h4
  obtain ⟨e4st, e4pd, e4sd, e4ru, e4dd, e4vT, e4vU, e4va, e4ls, e4rp, e4cr, e4ic,
    e4w, e4fl, e4ct⟩ := h4
  have w4 : A4.torso_angles = [g3, g4] := by
    rw [e4w, w3]
    rfl
  have f4 : A4.torso_violation_during_transition = false := by
    rw [e4fl, w3, f3]
    exact if_neg (by simp [pushTrim])
  -- frame 5: raw TRANSITION seen from UP, a pending transition starts
  have hne5 : proposeLevel cfg a5 ≠ A4.state := by
    rw [hp5, e4st]
    decide
  have h5 := step_nc cfg true A4 ((leftFrame (some a5) g5 t5).leftInput) t5 a5
    rfl rfl e4pd hne5
  rw [← hA5] at h5
  obtain ⟨e5st, e5pd, e5vT, e5vU, e5sd, e5ru, e5dd, e5va, e5ls, e5rp, e5cr, e5ic,
    e5ct, -, e5nd⟩ := h5
  rw [e4st] at e5st
  rw [hp5] at e5pd
  have hnd4 : A4.state ≠ Level.down := by
    rw [e4st]
    decide
  obtain ⟨e5w, e5fl⟩ := e5nd hnd4
  have w5 : A5.torso_angles = [g3, g4, g5] := by
    rw [e5w, w4]
    rfl
  have f5 : A5.torso_violation_during_transition = false := by
    rw [e5fl, w4, f4]
    exact if_neg (fun hc => absurd hc.2
      (not_lt.mpr (mean3_le cfg.torso_angle_threshold g3 g4 g5 hg3 hg4 hg5)))
  -- frame 6: the pending TRANSITION matures and commits: the descent starts
  have ru5 : A5.reached_up_in_cycle = true := e5ru.trans e4ru
  have h6 := step_descend cfg true A5 ((leftFrame (some a6) g6 t6).leftInput) t6 a6 t5
    rfl rfl e5st hp6 e5pd hd6 ru5
  rw [← hA6] at h6
  obtain ⟨e6st, e6pd, e6sd, e6ru, e6dd, e6vT, e6vU, e6va, e6ls, e6rp, e6cr, e6ic,
    e6w, e6fl, e6ct⟩ := h6
  have w6 : A6.torso_angles = [g4, g5, g6] := by
    rw [e6w, w5]
    rfl
  have f6 : A6.torso_violation_during_transition = false := by
    rw [e6fl, w5, f5]
    exact if_neg (fun hc => absurd hc.2
      (not_lt.mpr (mean3_le cfg.torso_angle_threshold g4 g5 g6 hg4 hg5 hg6)))
  -- frame 7: raw DOWN seen from TRANSITION, a pending transition starts
  have hne7 : proposeLevel cfg a7 ≠ A6.state := by
    rw [hp7, e6st]
    decide
  have h7 := step_nc cfg true A6 ((leftFrame (some a7) g7 t7).leftInput) t7 a7
    rfl rfl e6pd hne7
  rw [← hA7] at h7
  obtain ⟨e7st, e7pd, e7vT, e7vU, e7sd, e7ru, e7dd, e7va, e7ls, e7rp, e7cr, e7ic,
    e7ct, -, e7nd⟩ := h7
  rw [e6st] at e7st
  rw [hp7] at e7pd
  have hnd6 : A6.state ≠ Level.down := by
    rw [e6st]
    decide
  obtain ⟨e7w, e7fl⟩ := e7nd hnd6
  have w7 : A7.torso_angles = [g5, g6, g7] := by
    rw [e7w, w6]
    rfl
  have f7 : A7.torso_violation_during_transition = false := by
    rw [e7fl, w6, f6]
    exact if_neg (fun hc => absurd hc.2
      (not_lt.mpr (mean3_le cfg.torso_angle_threshold g5 g6 g7 hg5 hg6 hg7)))
  -- frame 8: the pending DOWN matures and commits: the cycle closes cleanly
  have va7 : A7.rep_is_valid = true :=
    e7va.trans (e6va.trans (e5va.trans (e4va.trans (e3va.trans e2va))))
  have vT7 : A7.visited_transition = true := e7vT.trans e6vT
  have vU7 : A7.visited_up = true := e7vU.trans (e6vU.trans (e5vU.trans e4vU))
  have sd7 : A7.started_from_down = true := e7sd.trans (e6sd.trans (e5sd.trans e4sd))
  have ru7 : A7.reached_up_in_cycle = true := e7ru.trans e6ru
  have dd7 : A7.descending_to_down = true := e7dd.trans e6dd
  have hm8 : ¬ (cfg.torso_angle_threshold < listMean
      (pushTrim 3 A7.torso_angles (((leftFrame (some a8) g8 t8).leftInput).torso_angle))) := by
    rw [w7]
    exact not_lt.mpr (mean3_le cfg.torso_angle_threshold g6 g7 g8 hg6 hg7 hg8)
  have h8 := step_close cfg true A7 ((leftFrame (some a8) g8 t8).leftInput) t8 a8 t7
    rfl rfl e7st hp8 e7pd hd8 va7 vT7 vU7 sd7 ru7 dd7 f7 hm8 hrom
  rw [← hA8] at h8
  obtain ⟨e8st, e8pd, e8rp, e8cr, e8ic, e8ls, e8ct⟩ := h8
  refine ⟨?_, ?_, ?_, e8ls, e8st, ?_⟩
  · rw [e8rp, e7rp, e6rp, e5rp, e4rp, e3rp, e2rp, e1rp]
  · rw [e8cr, e7cr, e6cr, e5cr, e4cr, e3cr, e2cr, e1cr]
  · rw [e8ic, e7ic, e6ic, e5ic, e4ic, e3ic, e2ic, e1ic]
  · simp only [e1ct, e2ct, e3ct, e4ct, e5ct, e6ct, e7ct, e8ct]
    simp

/-- Counter state committed DOWN on the left arm with no pending change. -/
def c3Start : CounterState :=
  { initState 0 with left := { initArm 0 with state := Level.down } }

/-- C3 theorem instantiated at a concrete clean cycle: angles 100, 100 (raw
TRANSITION), 40, 40 (raw UP), 100, 100 (raw TRANSITION), 170, 170 (raw DOWN)
at one-second spacing with upright torso: exactly one correct rep. -/
theorem C3_witness :
    (run defaultConfig c3Start (c3Frames 100 100 40 40 100 100 170 170
        0 0 0 0 0 0 0 0 1 2 3 4 5 6 7 8)).left.reps = c3Start.left.reps + 1 ∧
    (run defaultConfig c3Start (c3Frames 100 100 40 40 100 100 170 170
        0 0 0 0 0 0 0 0 1 2 3 4 5 6 7 8)).left.correct_reps = c3Start.left.correct_reps + 1 ∧
    (run defaultConfig c3Start (c3Frames 100 100 40 40 100 100 170 170
        0 0 0 0 0 0 0 0 1 2 3 4 5 6 7 8)).left.incorrect_reps = c3Start.left.incorrect_reps ∧
    (run defaultConfig c3Start (c3Frames 100 100 40 40 100 100 170 170
        0 0 0 0 0 0 0 0 1 2 3 4 5 6 7 8)).left.last_rep_reasons = [] ∧
    (run defaultConfig c3Start (c3Frames 100 100 40 40 100 100 170 170
        0 0 0 0 0 0 0 0 1 2 3 4 5 6 7 8)).left.state = Level.down ∧
    (run defaultConfig c3Start (c3Frames 100 100 40 40 100 100 170 170
        0 0 0 0 0 0 0 0 1 2 3 4 5 6 7 8)).total_reps = c3Start.total_reps + 1 :=
  C3_thm defaultConfig c3Start 100 100 40 40 100 100 170 170
    0 0 0 0 0 0 0 0 1 2 3 4 5 6 7 8 rfl rfl
    (by decide) (by decide) (by decide) (by decide)
    (by decide) (by decide) (by decide) (by decide)
    (by decide) (by decide) (by decide) (by decide)
    (by decide) (by decide) (by decide) (by decide) (by decide) (by decide)
    (by decide)

end GymBuddy